import Mathlib

/-!
Household-metrics server: a shallow embedding of `server/server.go` and `auth/jwt.go`.

The Go server keeps five in-memory maps (users, roles, rooms, metrics, readings) and
exposes HTTP handlers over them.  Each handler is embedded as a pure function from the
server state, the environment (clock, id generator, JWT and UUID libraries) and the request
to a response together with the next server state.  A run of the server is a list of handler
calls, executed one at a time from the store `NewServer` creates.

Conventions of the embedding:
* a Go `map[K]V` is a `GoMap K V`: a list of entries with pairwise distinct keys; `range`
  visits the entries in list order (one of the orders Go may choose);
* a Go `string` is a Lean `String`, one character per byte (`len` is `String.length`);
* `time.Time` is an integer count of nanoseconds since the zero instant (`IsZero` is `= 0`);
* a `float64` is carried as its 64-bit pattern (the server never computes with it);
* a run-time panic (nil dereference, slice bounds out of range) is the response `panic`.
-/

namespace HouseholdServer

/-! ## Go maps -/

/-- Write `k ↦ v` into an entry list: overwrite the entry of `k` when there is one, add a new
entry otherwise. -/
def setEntry {K V : Type} [DecidableEq K] (k : K) (v : V) : List (K × V) → List (K × V)
  | [] => [(k, v)]
  | (k1, v1) :: t => if k1 = k then (k, v) :: t else (k1, v1) :: setEntry k v t

/-- Value stored under `k` in an entry list, if any. -/
def getEntry {K V : Type} [DecidableEq K] (k : K) : List (K × V) → Option V
  | [] => none
  | (k1, v1) :: t => if k1 = k then some v1 else getEntry k t

/-- Entry list without the entries of key `k`. -/
def deleteEntry {K V : Type} [DecidableEq K] (k : K) (l : List (K × V)) : List (K × V) :=
  l.filter (fun p => decide (p.1 ≠ k))

/-- A Go map: entries with pairwise distinct keys. -/
structure GoMap (K V : Type) where
  entries : List (K × V)
  nodup : (entries.map Prod.fst).Nodup

namespace GoMap

variable {K V : Type} [DecidableEq K]

/-- The map `make(map[K]V)`. -/
def empty : GoMap K V := ⟨[], List.nodup_nil⟩

/-- The lookup `v, ok := m[k]`. -/
def get? (m : GoMap K V) (k : K) : Option V := getEntry k m.entries

/-- The assignment `m[k] = v`.  The keys stay distinct: the keys of the written list are the
old keys and `k`, and `k` is added only when it was not a key. -/
def set (m : GoMap K V) (k : K) (v : V) : GoMap K V :=
  ⟨setEntry k v m.entries, by
    have key : ∀ l : List (K × V),
        (∀ x, x ∈ (setEntry k v l).map Prod.fst → x = k ∨ x ∈ l.map Prod.fst) ∧
          ((l.map Prod.fst).Nodup → ((setEntry k v l).map Prod.fst).Nodup) := by
      intro l
      induction l with
      | nil => simp [setEntry]
      | cons p t ih =>
        obtain ⟨k1, v1⟩ := p
        by_cases hk : k1 = k
        · subst hk
          simp [setEntry]
        · simp only [setEntry, if_neg hk, List.map_cons, List.mem_cons, List.nodup_cons]
          refine ⟨?_, ?_⟩
          · rintro x (hx | hx)
            · exact Or.inr (Or.inl hx)
            · rcases ih.1 x hx with h1 | h1
              · exact Or.inl h1
              · exact Or.inr (Or.inr h1)
          · rintro ⟨h1, h2⟩
            refine ⟨?_, ih.2 h2⟩
            intro hmem
            rcases ih.1 k1 hmem with h3 | h3
            · exact hk h3
            · exact h1 h3
    exact (key m.entries).2 m.nodup⟩

/-- The statement `delete(m, k)`.  The keys stay distinct: the kept entries are a sublist. -/
def delete (m : GoMap K V) (k : K) : GoMap K V :=
  ⟨deleteEntry k m.entries, m.nodup.sublist ((List.filter_sublist m.entries).map Prod.fst)⟩

/-- The values of the map in iteration order. -/
def values (m : GoMap K V) : List V := m.entries.map Prod.snd

end GoMap

/-! ## Data model (`models/*.go`) -/

/-- A `uuid.UUID`, as the number its 16 bytes spell; `uuid.Nil` is `0`. -/
abbrev UUID := Nat

/-- A `time.Time`: nanoseconds since the zero instant. -/
abbrev Time := Int

/-- A `float64`, as its bit pattern. -/
abbrev Float64 := Nat

/-- The duration `time.Hour` in nanoseconds. -/
def Hour : Int := 3600 * 1000000000

structure Role where
  ID : UUID
  Name : String
  Description : String
  Permissions : List String
  deriving DecidableEq

structure User where
  ID : UUID
  Username : String
  Password : String
  Email : String
  Roles : List Role
  CreatedAt : Time
  UpdatedAt : Time
  deriving DecidableEq

structure Room where
  ID : UUID
  Name : String
  Description : String
  CreatedAt : Time
  UpdatedAt : Time
  deriving DecidableEq

structure Metric where
  ID : UUID
  Name : String
  Description : String
  Unit : String
  RoomID : UUID
  CreatedAt : Time
  UpdatedAt : Time
  deriving DecidableEq

structure MetricReading where
  ID : UUID
  MetricID : UUID
  Value : Float64
  Timestamp : Time
  CreatedAt : Time
  deriving DecidableEq

structure LoginRequest where
  Username : String
  Password : String
  deriving DecidableEq

structure RegisterRequest where
  Username : String
  Password : String
  Email : String
  Roles : List String
  deriving DecidableEq

structure AuthResponse where
  Token : String
  User : User
  deriving DecidableEq

structure UserListResponse where
  Users : List User
  Total : Nat
  deriving DecidableEq

structure CreateRoleRequest where
  Name : String
  Description : String
  Permissions : List String
  deriving DecidableEq

structure CreateRoomRequest where
  Name : String
  Description : String
  deriving DecidableEq

structure RoomListResponse where
  Rooms : List Room
  Total : Nat
  deriving DecidableEq

structure CreateMetricRequest where
  Name : String
  Description : String
  Unit : String
  RoomID : UUID
  deriving DecidableEq

structure AddReadingRequest where
  Value : Float64
  Timestamp : Time
  deriving DecidableEq

structure MetricWithReadings where
  Metric : Metric
  Readings : List MetricReading
  deriving DecidableEq

structure MetricListResponse where
  Metrics : List Metric
  Total : Nat
  deriving DecidableEq

structure ReadingListResponse where
  Readings : List MetricReading
  Total : Nat
  deriving DecidableEq

/-! ## HTTP plumbing -/

def StatusBadRequest : Nat := 400
def StatusUnauthorized : Nat := 401
def StatusForbidden : Nat := 403
def StatusNotFound : Nat := 404
def StatusMethodNotAllowed : Nat := 405
def StatusInternalServerError : Nat := 500

/-- What a handler reads of a `*http.Request`: the `Authorization` header (empty when the
header is absent, as `Header.Get` returns it), `URL.Path`, and the result of decoding the body
as the handler's request type (`none` when `Decode` returns an error). -/
structure Request (β : Type) where
  authHeader : String
  path : String
  body : Option β

/-- What a handler writes: `ok b` is the JSON encoding of `b` with status 200, `error msg code`
is `http.Error(w, msg, code)`, and `panic` is a run-time panic of the handler. -/
inductive Response (α : Type) where
  | ok (body : α)
  | error (msg : String) (code : Nat)
  | panic
  deriving DecidableEq

/-- The slice expression `s[a:]`; `none` is the panic for `a > len(s)`. -/
def sliceFrom (s : String) (a : Nat) : Option String :=
  if a ≤ s.length then some (String.mk (s.data.drop a)) else none

/-- The slice expression `s[:len(s)-n]`; `none` is the panic for `len(s)-n < 0`. -/
def sliceDropLast (s : String) (n : Nat) : Option String :=
  if n ≤ s.length then some (String.mk (s.data.take (s.length - n))) else none

/-- The call `strings.Split(s, " ")` on the characters of `s`. -/
def splitOnSpace : List Char → List (List Char)
  | [] => [[]]
  | c :: cs =>
    if c = ' ' then [] :: splitOnSpace cs
    else
      match splitOnSpace cs with
      | [] => [[c]]
      | p :: ps => (c :: p) :: ps

/-! ## Tokens (`auth/jwt.go`) -/

deriving instance DecidableEq for Except

/-- The JWT claims: the two custom fields and the registered claims the code sets. -/
structure Claims where
  UserID : String
  Username : String
  ExpiresAt : Option Time
  IssuedAt : Option Time
  deriving DecidableEq

/-- Everything outside the repository a handler calls: the clock, the id generator and the
`uuid` and `jwt` libraries.  `now k` and `uuidNew k` are the results of the `k`-th call of
`time.Now()` and `uuid.New()` made while the handler runs.  `parseWithClaims tok` is
`jwt.ParseWithClaims(tok, claims, keyFunc)` with the process key: the error, or the token's
`Valid` flag with the claims it filled in. -/
structure Env where
  now : Nat → Time
  uuidNew : Nat → UUID
  uuidParse : String → Option UUID
  uuidString : UUID → String
  newNumericDate : Time → Time
  signedString : Claims → Except String String
  parseWithClaims : String → Except String (Bool × Claims)

/-- The error `jwt.ErrSignatureInvalid`. -/
def ErrSignatureInvalid : String := "signature is invalid"

/-- The claims `GenerateToken` builds.  It reads the clock twice: reading number `k` for the
expiry and reading number `k + 1` for the issued-at time. -/
def tokenClaims (e : Env) (k : Nat) (user : User) : Claims :=
  { UserID := e.uuidString user.ID
    Username := user.Username
    ExpiresAt := some (e.newNumericDate (e.now k + 24 * Hour))
    IssuedAt := some (e.newNumericDate (e.now (k + 1))) }

/-- The function `GenerateToken`; its two clock readings are number `k` and `k + 1`. -/
def GenerateToken (e : Env) (k : Nat) (user : User) : Except String String :=
  e.signedString (tokenClaims e k user)

/-- The function `ValidateToken`, on the value of the `Authorization` header. -/
def ValidateToken (e : Env) (authHeader : String) : Except String Claims :=
  if authHeader = "" then .error ErrSignatureInvalid
  else
    let parts := (splitOnSpace authHeader.data).map String.mk
    if parts.length ≠ 2 ∨ parts.head? ≠ some "Bearer" then .error ErrSignatureInvalid
    else
      let token := parts.getD 1 ""
      match e.parseWithClaims token with
      | .error err => .error err
      | .ok (valid, claims) =>
        if !valid then .error ErrSignatureInvalid else .ok claims

/-! ## The server (`server/server.go`) -/

/-- The struct `Server`: the five maps. -/
structure Server where
  users : GoMap UUID User
  roles : GoMap String Role
  rooms : GoMap UUID Room
  metrics : GoMap UUID Metric
  readings : GoMap UUID (List MetricReading)

/-- The function `NewServer`; the arguments are the ids `uuid.New()` gives the two roles. -/
def NewServer (adminID userID : UUID) : Server :=
  { users := GoMap.empty
    roles :=
      (GoMap.empty.set "admin"
        { ID := adminID
          Name := "admin"
          Description := "Administrator role with full access"
          Permissions :=
            ["read", "write", "delete", "manage_users", "manage_roles", "manage_metrics",
              "manage_rooms"] }).set "user"
        { ID := userID
          Name := "user"
          Description := "Regular user role"
          Permissions := ["read", "write"] }
    rooms := GoMap.empty
    metrics := GoMap.empty
    readings := GoMap.empty }

namespace Server

/-- The loop `for _, u := range s.users` that stops at the first user named `username`. -/
def findUserByUsername (s : Server) (username : String) : Option User :=
  s.users.values.find? (fun u => decide (u.Username = username))

/-- The loop over `user.Roles` that looks for a role named `"admin"`. -/
def hasAdminRole (user : User) : Bool :=
  user.Roles.any (fun role => decide (role.Name = "admin"))

/-- The handler `Register`. -/
def Register (s : Server) (e : Env) (r : Request RegisterRequest) :
    Response AuthResponse × Server :=
  match r.body with
  | none => (.error "Invalid request body" StatusBadRequest, s)
  | some req =>
    if s.users.values.any (fun user => decide (user.Username = req.Username)) then
      (.error "Username already taken" StatusBadRequest, s)
    else
      -- `*s.roles["user"]` dereferences a nil pointer when the catalog has no "user" role
      let userRoles : Option (List Role) :=
        if req.Roles.length = 0 then (s.roles.get? "user").map (fun role => [role])
        else some (req.Roles.filterMap (fun roleName => s.roles.get? roleName))
      match userRoles with
      | none => (.panic, s)
      | some userRoles =>
        let now := e.now 0
        let user : User :=
          { ID := e.uuidNew 0
            Username := req.Username
            Password := req.Password
            Email := req.Email
            Roles := userRoles
            CreatedAt := now
            UpdatedAt := now }
        let s1 : Server := { s with users := s.users.set user.ID user }
        match GenerateToken e 1 user with
        | .error _ => (.error "Failed to generate token" StatusInternalServerError, s1)
        | .ok token => (.ok { Token := token, User := user }, s1)

/-- The handler `Login`. -/
def Login (s : Server) (e : Env) (r : Request LoginRequest) : Response AuthResponse × Server :=
  match r.body with
  | none => (.error "Invalid request body" StatusBadRequest, s)
  | some req =>
    match s.findUserByUsername req.Username with
    | none => (.error "Invalid credentials" StatusUnauthorized, s)
    | some user =>
      if user.Password ≠ req.Password then (.error "Invalid credentials" StatusUnauthorized, s)
      else
        match GenerateToken e 0 user with
        | .error _ => (.error "Failed to generate token" StatusInternalServerError, s)
        | .ok token => (.ok { Token := token, User := user }, s)

/-- The handler `ListUsers`. -/
def ListUsers (s : Server) (e : Env) (r : Request Unit) : Response UserListResponse × Server :=
  match ValidateToken e r.authHeader with
  | .error _ => (.error "Unauthorized" StatusUnauthorized, s)
  | .ok claims =>
    match s.findUserByUsername claims.Username with
    | none => (.error "User not found" StatusNotFound, s)
    | some user =>
      if !hasAdminRole user then (.error "Permission denied" StatusForbidden, s)
      else
        let users := s.users.values
        (.ok { Users := users, Total := users.length }, s)

/-- The handler `CreateRole`. -/
def CreateRole (s : Server) (e : Env) (r : Request CreateRoleRequest) :
    Response Role × Server :=
  match ValidateToken e r.authHeader with
  | .error _ => (.error "Unauthorized" StatusUnauthorized, s)
  | .ok claims =>
    match s.findUserByUsername claims.Username with
    | none => (.error "User not found" StatusNotFound, s)
    | some user =>
      if !hasAdminRole user then (.error "Permission denied" StatusForbidden, s)
      else
        match r.body with
        | none => (.error "Invalid request body" StatusBadRequest, s)
        | some req =>
          if (s.roles.get? req.Name).isSome then
            (.error "Role already exists" StatusBadRequest, s)
          else
            let role : Role :=
              { ID := e.uuidNew 0
                Name := req.Name
                Description := req.Description
                Permissions := req.Permissions }
            (.ok role, { s with roles := s.roles.set role.Name role })

/-- The method `GetUserIDFromToken`. -/
def GetUserIDFromToken (s : Server) (e : Env) (authHeader : String) : Except String UUID :=
  match ValidateToken e authHeader with
  | .error err => .error err
  | .ok claims =>
    match s.findUserByUsername claims.Username with
    | some user => .ok user.ID
    | none => .error "user not found"

/-- The handler `CreateRoom`. -/
def CreateRoom (s : Server) (e : Env) (r : Request CreateRoomRequest) :
    Response Room × Server :=
  match s.GetUserIDFromToken e r.authHeader with
  | .error _ => (.error "Unauthorized" StatusUnauthorized, s)
  | .ok userID =>
    match s.users.get? userID with
    | none => (.error "User not found" StatusNotFound, s)
    | some user =>
      if !hasAdminRole user then (.error "Permission denied" StatusForbidden, s)
      else
        match r.body with
        | none => (.error "Invalid request body" StatusBadRequest, s)
        | some req =>
          let now := e.now 0
          let room : Room :=
            { ID := e.uuidNew 0
              Name := req.Name
              Description := req.Description
              CreatedAt := now
              UpdatedAt := now }
          (.ok room, { s with rooms := s.rooms.set room.ID room })

/-- The handler `ListRooms`. -/
def ListRooms (s : Server) (e : Env) (r : Request Unit) : Response RoomListResponse × Server :=
  match s.GetUserIDFromToken e r.authHeader with
  | .error _ => (.error "Unauthorized" StatusUnauthorized, s)
  | .ok _ =>
    let rooms := s.rooms.values
    (.ok { Rooms := rooms, Total := rooms.length }, s)

/-- The handler `GetRoom`. -/
def GetRoom (s : Server) (e : Env) (r : Request Unit) : Response Room × Server :=
  match s.GetUserIDFromToken e r.authHeader with
  | .error _ => (.error "Unauthorized" StatusUnauthorized, s)
  | .ok _ =>
    match sliceFrom r.path "/rooms/".length with
    | none => (.panic, s)
    | some idStr =>
      match e.uuidParse idStr with
      | none => (.error "Invalid room ID" StatusBadRequest, s)
      | some id =>
        match s.rooms.get? id with
        | none => (.error "Room not found" StatusNotFound, s)
        | some room => (.ok room, s)

/-- The body of the loop of `DeleteRoom`, run on the entry `p` of `s.metrics`. -/
def deleteRoomStep (id : UUID) (st : Server) (p : UUID × Metric) : Server :=
  if p.2.RoomID = id then
    { st with metrics := st.metrics.delete p.1, readings := st.readings.delete p.1 }
  else st

/-- The loop of `DeleteRoom` over `s.metrics`: every metric of room `id` is deleted from
`s.metrics` and its key from `s.readings`.  Only the entry being visited is ever deleted, so
the loop visits every entry the map had when it started. -/
def deleteRoomMetrics (s : Server) (id : UUID) : Server :=
  s.metrics.entries.foldl (deleteRoomStep id) s

/-- The handler `DeleteRoom`. -/
def DeleteRoom (s : Server) (e : Env) (r : Request Unit) : Response String × Server :=
  match s.GetUserIDFromToken e r.authHeader with
  | .error _ => (.error "Unauthorized" StatusUnauthorized, s)
  | .ok userID =>
    match s.users.get? userID with
    | none => (.error "User not found" StatusNotFound, s)
    | some user =>
      if !hasAdminRole user then (.error "Permission denied" StatusForbidden, s)
      else
        match sliceFrom r.path "/rooms/".length with
        | none => (.panic, s)
        | some idStr =>
          match e.uuidParse idStr with
          | none => (.error "Invalid room ID" StatusBadRequest, s)
          | some id =>
            if (s.rooms.get? id).isNone then (.error "Room not found" StatusNotFound, s)
            else
              let s1 := s.deleteRoomMetrics id
              (.ok "Room deleted successfully", { s1 with rooms := s1.rooms.delete id })

/-- The handler `CreateMetric`. -/
def CreateMetric (s : Server) (e : Env) (r : Request CreateMetricRequest) :
    Response Metric × Server :=
  match s.GetUserIDFromToken e r.authHeader with
  | .error _ => (.error "Unauthorized" StatusUnauthorized, s)
  | .ok userID =>
    match s.users.get? userID with
    | none => (.error "User not found" StatusNotFound, s)
    | some user =>
      if !hasAdminRole user then (.error "Permission denied" StatusForbidden, s)
      else
        match r.body with
        | none => (.error "Invalid request body" StatusBadRequest, s)
        | some req =>
          if (s.rooms.get? req.RoomID).isNone then
            (.error "Room not found" StatusBadRequest, s)
          else
            let now := e.now 0
            let metric : Metric :=
              { ID := e.uuidNew 0
                Name := req.Name
                Description := req.Description
                Unit := req.Unit
                RoomID := req.RoomID
                CreatedAt := now
                UpdatedAt := now }
            (.ok metric,
              { s with
                metrics := s.metrics.set metric.ID metric
                readings := s.readings.set metric.ID [] })

/-- The handler `ListMetrics`. -/
def ListMetrics (s : Server) (e : Env) (r : Request Unit) :
    Response MetricListResponse × Server :=
  match s.GetUserIDFromToken e r.authHeader with
  | .error _ => (.error "Unauthorized" StatusUnauthorized, s)
  | .ok _ =>
    let metrics := s.metrics.values
    (.ok { Metrics := metrics, Total := metrics.length }, s)

/-- The handler `GetMetric`. -/
def GetMetric (s : Server) (e : Env) (r : Request Unit) :
    Response MetricWithReadings × Server :=
  match s.GetUserIDFromToken e r.authHeader with
  | .error _ => (.error "Unauthorized" StatusUnauthorized, s)
  | .ok _ =>
    match sliceFrom r.path "/metrics/".length with
    | none => (.panic, s)
    | some idStr =>
      match e.uuidParse idStr with
      | none => (.error "Invalid metric ID" StatusBadRequest, s)
      | some id =>
        match s.metrics.get? id with
        | none => (.error "Metric not found" StatusNotFound, s)
        | some metric =>
          let readings := (s.readings.get? id).getD []
          (.ok { Metric := metric, Readings := readings }, s)

/-- The handler `DeleteMetric`. -/
def DeleteMetric (s : Server) (e : Env) (r : Request Unit) : Response String × Server :=
  match s.GetUserIDFromToken e r.authHeader with
  | .error _ => (.error "Unauthorized" StatusUnauthorized, s)
  | .ok userID =>
    match s.users.get? userID with
    | none => (.error "User not found" StatusNotFound, s)
    | some user =>
      if !hasAdminRole user then (.error "Permission denied" StatusForbidden, s)
      else
        match sliceFrom r.path "/metrics/".length with
        | none => (.panic, s)
        | some idStr =>
          match e.uuidParse idStr with
          | none => (.error "Invalid metric ID" StatusBadRequest, s)
          | some id =>
            if (s.metrics.get? id).isNone then (.error "Metric not found" StatusNotFound, s)
            else
              (.ok "Metric deleted successfully",
                { s with metrics := s.metrics.delete id, readings := s.readings.delete id })

/-- The id text of a readings path: `Path[len("/metrics/"):]` without its last
`len("/readings")` bytes; `none` when one of the two slice expressions panics. -/
def readingsIDStr (path : String) : Option String :=
  match sliceFrom path "/metrics/".length with
  | none => none
  | some idStr => sliceDropLast idStr "/readings".length

/-- The handler `AddReading`. -/
def AddReading (s : Server) (e : Env) (r : Request AddReadingRequest) :
    Response MetricReading × Server :=
  match s.GetUserIDFromToken e r.authHeader with
  | .error _ => (.error "Unauthorized" StatusUnauthorized, s)
  | .ok _ =>
    match readingsIDStr r.path with
    | none => (.panic, s)
    | some idStr =>
      match e.uuidParse idStr with
      | none => (.error "Invalid metric ID" StatusBadRequest, s)
      | some id =>
        if (s.metrics.get? id).isNone then (.error "Metric not found" StatusNotFound, s)
        else
          match r.body with
          | none => (.error "Invalid request body" StatusBadRequest, s)
          | some req =>
            -- the clock is read for the timestamp only when the request carries none
            let timestamp := if req.Timestamp = 0 then e.now 0 else req.Timestamp
            let createdAt := if req.Timestamp = 0 then e.now 1 else e.now 0
            let reading : MetricReading :=
              { ID := e.uuidNew 0
                MetricID := id
                Value := req.Value
                Timestamp := timestamp
                CreatedAt := createdAt }
            (.ok reading,
              { s with readings := s.readings.set id ((s.readings.get? id).getD [] ++ [reading]) })

/-- The handler `GetReadings`. -/
def GetReadings (s : Server) (e : Env) (r : Request Unit) :
    Response ReadingListResponse × Server :=
  match s.GetUserIDFromToken e r.authHeader with
  | .error _ => (.error "Unauthorized" StatusUnauthorized, s)
  | .ok _ =>
    match readingsIDStr r.path with
    | none => (.panic, s)
    | some idStr =>
      match e.uuidParse idStr with
      | none => (.error "Invalid metric ID" StatusBadRequest, s)
      | some id =>
        if (s.metrics.get? id).isNone then (.error "Metric not found" StatusNotFound, s)
        else
          let readings := (s.readings.get? id).getD []
          (.ok { Readings := readings, Total := readings.length }, s)

end Server

/-! ## The dispatchers registered in `Start` -/

/-- A response without its body: what the dispatchers, whose handlers answer with different
body types, have in common. -/
inductive Outcome where
  | ok
  | error (msg : String) (code : Nat)
  | panic
  deriving DecidableEq

/-- The outcome of a response. -/
def Response.outcome {α : Type} : Response α → Outcome
  | .ok _ => .ok
  | .error msg code => .error msg code
  | .panic => .panic

/-- A request without its decoded body. -/
def Request.noBody {β : Type} (r : Request β) : Request Unit :=
  { authHeader := r.authHeader, path := r.path, body := none }

namespace Server

/-- The function registered for the pattern `"/rooms/"` in `Start`; `method` is `r.Method`. -/
def roomsDispatch (s : Server) (e : Env) (method : String) (r : Request Unit) :
    Outcome × Server :=
  if r.path = "/rooms/" then (.error "Invalid room ID" StatusBadRequest, s)
  else if method = "GET" then ((s.GetRoom e r).1.outcome, (s.GetRoom e r).2)
  else if method = "DELETE" then ((s.DeleteRoom e r).1.outcome, (s.DeleteRoom e r).2)
  else (.error "Method not allowed" StatusMethodNotAllowed, s)

/-- The function registered for the pattern `"/metrics/"` in `Start`; `method` is `r.Method`.
The suffix slice `Path[len(Path)-len("/readings"):]` panics for a path shorter than
`"/readings"`; the mux routes to this function only paths that start with `"/metrics/"`. -/
def metricsDispatch (s : Server) (e : Env) (method : String) (r : Request AddReadingRequest) :
    Outcome × Server :=
  if r.path = "/metrics/" then (.error "Invalid metric ID" StatusBadRequest, s)
  else if r.path.length < "/readings".length then (.panic, s)
  else
    match sliceFrom r.path (r.path.length - "/readings".length) with
    | none => (.panic, s)
    | some suffix =>
      if suffix = "/readings" then
        if method = "POST" then ((s.AddReading e r).1.outcome, (s.AddReading e r).2)
        else if method = "GET" then
          ((s.GetReadings e r.noBody).1.outcome, (s.GetReadings e r.noBody).2)
        else (.error "Method not allowed" StatusMethodNotAllowed, s)
      else if method = "GET" then
        ((s.GetMetric e r.noBody).1.outcome, (s.GetMetric e r.noBody).2)
      else if method = "DELETE" then
        ((s.DeleteMetric e r.noBody).1.outcome, (s.DeleteMetric e r.noBody).2)
      else (.error "Method not allowed" StatusMethodNotAllowed, s)

end Server

/-! ## Sequences of operations -/

/-- One call of a handler: the handler, the environment it runs in and its request. -/
inductive Op where
  | register (e : Env) (r : Request RegisterRequest)
  | login (e : Env) (r : Request LoginRequest)
  | listUsers (e : Env) (r : Request Unit)
  | createRole (e : Env) (r : Request CreateRoleRequest)
  | createRoom (e : Env) (r : Request CreateRoomRequest)
  | listRooms (e : Env) (r : Request Unit)
  | getRoom (e : Env) (r : Request Unit)
  | deleteRoom (e : Env) (r : Request Unit)
  | createMetric (e : Env) (r : Request CreateMetricRequest)
  | listMetrics (e : Env) (r : Request Unit)
  | getMetric (e : Env) (r : Request Unit)
  | deleteMetric (e : Env) (r : Request Unit)
  | addReading (e : Env) (r : Request AddReadingRequest)
  | getReadings (e : Env) (r : Request Unit)

/-- The store a handler call leaves behind. -/
def Server.step (s : Server) : Op → Server
  | .register e r => (s.Register e r).2
  | .login e r => (s.Login e r).2
  | .listUsers e r => (s.ListUsers e r).2
  | .createRole e r => (s.CreateRole e r).2
  | .createRoom e r => (s.CreateRoom e r).2
  | .listRooms e r => (s.ListRooms e r).2
  | .getRoom e r => (s.GetRoom e r).2
  | .deleteRoom e r => (s.DeleteRoom e r).2
  | .createMetric e r => (s.CreateMetric e r).2
  | .listMetrics e r => (s.ListMetrics e r).2
  | .getMetric e r => (s.GetMetric e r).2
  | .deleteMetric e r => (s.DeleteMetric e r).2
  | .addReading e r => (s.AddReading e r).2
  | .getReadings e r => (s.GetReadings e r).2

/-- The store after the handler calls `ops`, run one at a time from the store `s`. -/
def Server.run (s : Server) (ops : List Op) : Server :=
  ops.foldl Server.step s

/-- The stores reachable from `NewServer`: what some sequence of handler calls, run one at a
time, leaves of a freshly created server. -/
def Reachable (s : Server) : Prop :=
  ∃ (adminID userID : UUID) (ops : List Op), s = (NewServer adminID userID).run ops

/-- The ways a handler call changes the store, read off the assignments and `delete`
statements of the handlers: nothing (`same`), or one of the seven writes, each with what the
handler has checked before it writes. -/
inductive Change (s : Server) : Server → Prop where
  | same : Change s s
  | addUser (user : User) (hfree : ∀ u ∈ s.users.values, u.Username ≠ user.Username) :
      Change s { s with users := s.users.set user.ID user }
  | addRole (role : Role) (hnew : s.roles.get? role.Name = none) :
      Change s { s with roles := s.roles.set role.Name role }
  | addRoom (room : Room) : Change s { s with rooms := s.rooms.set room.ID room }
  | dropRoom (id : UUID) :
      Change s
        { s.deleteRoomMetrics id with rooms := (s.deleteRoomMetrics id).rooms.delete id }
  | addMetric (metric : Metric) (hroom : (s.rooms.get? metric.RoomID).isSome = true) :
      Change s
        { s with
          metrics := s.metrics.set metric.ID metric
          readings := s.readings.set metric.ID [] }
  | dropMetric (id : UUID) :
      Change s { s with metrics := s.metrics.delete id, readings := s.readings.delete id }
  | addReading (id : UUID) (reading : MetricReading)
      (hmetric : (s.metrics.get? id).isSome = true) (hid : reading.MetricID = id) :
      Change s
        { s with readings := s.readings.set id ((s.readings.get? id).getD [] ++ [reading]) }

/-- No two stored users, under different keys, have the same username. -/
def UsernamesUnique (s : Server) : Prop :=
  ∀ (k1 k2 : UUID) (u1 u2 : User),
    s.users.get? k1 = some u1 → s.users.get? k2 = some u2 → u1.Username = u2.Username → k1 = k2

/-- The readings map has an entry exactly for the keys of the metrics map, every metric is
stored under its own id, and every reading is stored under its metric's id. -/
def ReadingsMatchMetrics (s : Server) : Prop :=
  (∀ id : UUID, (s.readings.get? id).isSome = true ↔ (s.metrics.get? id).isSome = true) ∧
  (∀ (id : UUID) (m : Metric), s.metrics.get? id = some m → m.ID = id) ∧
  (∀ (id : UUID) (rs : List MetricReading), s.readings.get? id = some rs →
    ∀ rd ∈ rs, rd.MetricID = id)

/-- Every stored metric's `RoomID` is the key of a stored room. -/
def MetricsHaveRooms (s : Server) : Prop :=
  ∀ (k : UUID) (m : Metric), s.metrics.get? k = some m → (s.rooms.get? m.RoomID).isSome = true

/-- The role `"admin"` as `NewServer` creates it, with the id `adminID`. -/
def initialAdminRole (adminID : UUID) : Role :=
  { ID := adminID
    Name := "admin"
    Description := "Administrator role with full access"
    Permissions :=
      ["read", "write", "delete", "manage_users", "manage_roles", "manage_metrics",
        "manage_rooms"] }

/-- The role `"user"` as `NewServer` creates it, with the id `userID`. -/
def initialUserRole (userID : UUID) : Role :=
  { ID := userID
    Name := "user"
    Description := "Regular user role"
    Permissions := ["read", "write"] }

/-- The catalog holds the two start-up roles as created and every role under its own name. -/
def CatalogIntact (adminID userID : UUID) (s : Server) : Prop :=
  s.roles.get? "admin" = some (initialAdminRole adminID) ∧
  s.roles.get? "user" = some (initialUserRole userID) ∧
  (∀ (name : String) (role : Role), s.roles.get? name = some role → role.Name = name)

/-! ## A concrete environment and concrete stores, for evaluating the handlers -/

/-- An environment in which the token `"tokA"` carries the username `"alice"`, `"tokB"` the
username `"bob"`, `"tokG"` the username `"ghost"`, every other token is rejected, and `uuid.Parse` knows the texts of the
ids 101 (hex 65), 201 (hex c9) and 202 (hex ca). -/
def demoEnv : Env :=
  { now := fun k => 1000 + k
    uuidNew := fun k => 900 + k
    uuidParse := fun t =>
      if t = "00000000-0000-0000-0000-000000000065" then some 101
      else if t = "00000000-0000-0000-0000-0000000000c9" then some 201
      else if t = "00000000-0000-0000-0000-0000000000ca" then some 202
      else none
    uuidString := fun _ => "id"
    newNumericDate := fun t => t
    signedString := fun c => .ok c.Username
    parseWithClaims := fun t =>
      if t = "tokA" then .ok (true, ⟨"1", "alice", none, none⟩)
      else if t = "tokB" then .ok (true, ⟨"2", "bob", none, none⟩)
      else if t = "tokG" then .ok (true, ⟨"3", "ghost", none, none⟩)
      else .error "token is malformed" }

def demoAdminRole : Role :=
  { ID := 1, Name := "admin", Description := "Administrator role with full access",
    Permissions :=
      ["read", "write", "delete", "manage_users", "manage_roles", "manage_metrics",
        "manage_rooms"] }

def demoUserRole : Role :=
  { ID := 2, Name := "user", Description := "Regular user role", Permissions := ["read", "write"] }

/-- A role that is not named `"admin"` and carries the permission `"manage_rooms"`. -/
def demoKeeperRole : Role :=
  { ID := 3, Name := "keeper", Description := "Room keeper", Permissions := ["manage_rooms"] }

/-- User `"alice"`: holds the admin role. -/
def demoAlice : User :=
  { ID := 11, Username := "alice", Password := "pw", Email := "alice@example.com",
    Roles := [demoAdminRole], CreatedAt := 5, UpdatedAt := 5 }

/-- User `"bob"`: holds the roles `"user"` and `"keeper"`, not `"admin"`. -/
def demoBob : User :=
  { ID := 12, Username := "bob", Password := "pw", Email := "bob@example.com",
    Roles := [demoUserRole, demoKeeperRole], CreatedAt := 6, UpdatedAt := 6 }

def demoRoom : Room :=
  { ID := 101, Name := "Kitchen", Description := "", CreatedAt := 7, UpdatedAt := 7 }

def demoMetric : Metric :=
  { ID := 201, Name := "Power", Description := "", Unit := "kWh", RoomID := 101,
    CreatedAt := 8, UpdatedAt := 8 }

def demoReading : MetricReading :=
  { ID := 301, MetricID := 201, Value := 32, Timestamp := 9, CreatedAt := 9 }

/-- A store with the two start-up roles, the users alice (admin) and bob, one room, one metric
of that room and one reading of that metric. -/
def demoStore : Server :=
  { users := (GoMap.empty.set 11 demoAlice).set 12 demoBob
    roles := (NewServer 1 2).roles
    rooms := GoMap.empty.set 101 demoRoom
    metrics := GoMap.empty.set 201 demoMetric
    readings := GoMap.empty.set 201 [demoReading] }

def demoRoom2 : Room :=
  { ID := 102, Name := "Attic", Description := "", CreatedAt := 10, UpdatedAt := 10 }

def demoMetric2 : Metric :=
  { ID := 202, Name := "Heat", Description := "", Unit := "C", RoomID := 102,
    CreatedAt := 11, UpdatedAt := 11 }

def demoReading2 : MetricReading :=
  { ID := 302, MetricID := 202, Value := 21, Timestamp := 12, CreatedAt := 12 }

def demoReading3 : MetricReading :=
  { ID := 303, MetricID := 202, Value := 19, Timestamp := 13, CreatedAt := 13 }

/-- The demo store with a second room, 102, that owns metric 202 with two readings. -/
def demoStore2 : Server :=
  { demoStore with
    rooms := demoStore.rooms.set 102 demoRoom2
    metrics := demoStore.metrics.set 202 demoMetric2
    readings := demoStore.readings.set 202 [demoReading2, demoReading3] }

/-- A time truncated to whole seconds, the precision with which the `jwt` library stores a
numeric date by default. -/
def truncateToSecond (t : Time) : Time := t - t % 1000000000

/-- The demo environment with numeric dates truncated to whole seconds and a clock that reads
4.999999999 s at the first reading and 5.000000001 s at the second. -/
def tickingEnv : Env :=
  { demoEnv with
    now := fun k => if k = 0 then 4999999999 else 5000000001
    newNumericDate := truncateToSecond }

/-- The environment `tickingEnv` with numeric dates that keep the full instant. -/
def tickingExactEnv : Env :=
  { tickingEnv with newNumericDate := fun t => t }

/-- Modelled from the spec: the answer of the token library's parser (`jwt.ParseWithClaims`,
whose code is not in the repository) at the time `now`, for a library whose signing is undone
by `unsign`.  The spec's `Validate` fails when the token is malformed or its signature is
invalid (`unsign` gives nothing) and when the token is expired, which it is once `now` is
strictly after the expiry ("rejected once now > expiresAt", "valid up to and including
T+24h"); otherwise the token is valid and carries its claims. -/
def specParseWithClaims (unsign : String → Option Claims) (now : Time) (tok : String) :
    Except String (Bool × Claims) :=
  match unsign tok with
  | none => .error "token is malformed"
  | some claims =>
    match claims.ExpiresAt with
    | none => .ok (true, claims)
    | some exp => if exp < now then .error "token is expired" else .ok (true, claims)

/-- Modelled from the spec: the environment of the token service at the time `now`.  The clock
reads `now`, a numeric date is the instant it is made from ("an issued-at time and an expiry
exactly 24 hours later"), signing always succeeds and parsing is `specParseWithClaims`; the
other fields are those of `base`. -/
def specTokenEnv (base : Env) (sign : Claims → String) (unsign : String → Option Claims)
    (now : Time) : Env :=
  { base with
    now := fun _ => now
    newNumericDate := fun t => t
    signedString := fun claims => .ok (sign claims)
    parseWithClaims := specParseWithClaims unsign now }

/-- The claims of the token issued to alice at the time 1000 in the spec-modelled service. -/
def demoSpecClaims : Claims :=
  { UserID := "id", Username := "alice", ExpiresAt := some (1000 + 24 * Hour),
    IssuedAt := some 1000 }

/-- A signing function for the demo: every token is written `"tokS"`. -/
def demoSign (_ : Claims) : String := "tokS"

/-- The parser-side inverse of `demoSign` on `demoSpecClaims`. -/
def demoUnsign (tok : String) : Option Claims :=
  if tok = "tokS" then some demoSpecClaims else none

/-! ## Vocabulary for the statements -/

/-- The user record a handler works with after its authentication steps: the record stored
under the id `GetUserIDFromToken` returns. -/
def Server.callerOf (s : Server) (e : Env) (authHeader : String) : Option User :=
  match s.GetUserIDFromToken e authHeader with
  | .error _ => none
  | .ok userID => s.users.get? userID

/-- The room id a path names for `GetRoom` and `DeleteRoom`: `uuid.Parse` of
`Path[len("/rooms/"):]`. -/
def roomIDOfPath (e : Env) (path : String) : Option UUID :=
  (sliceFrom path "/rooms/".length).bind e.uuidParse

/-- The metric id a path names for `GetMetric` and `DeleteMetric`: `uuid.Parse` of
`Path[len("/metrics/"):]`. -/
def metricIDOfPath (e : Env) (path : String) : Option UUID :=
  (sliceFrom path "/metrics/".length).bind e.uuidParse

/-- The metric id a path names for `AddReading` and `GetReadings`. -/
def readingsIDOfPath (e : Env) (path : String) : Option UUID :=
  (Server.readingsIDStr path).bind e.uuidParse

/-- The path of room 101. -/
def demoRoomPath : String := "/rooms/00000000-0000-0000-0000-000000000065"

/-- A room path whose id, 201, is the id of no stored room. -/
def demoMissingRoomPath : String := "/rooms/00000000-0000-0000-0000-0000000000c9"

/-- The path of metric 201. -/
def demoMetricPath : String := "/metrics/00000000-0000-0000-0000-0000000000c9"

/-- The readings path of metric 201. -/
def demoReadingsPath : String := "/metrics/00000000-0000-0000-0000-0000000000c9/readings"

/-- A request with the given `Authorization` header, path and decoded body. -/
def mkReq {β : Type} (authHeader path : String) (body : Option β) : Request β :=
  { authHeader := authHeader, path := path, body := body }

/-- The demo environment with `n` as the id `uuid.New()` returns. -/
def demoEnvWithID (n : UUID) : Env :=
  { demoEnv with uuidNew := fun _ => n }

/-- A run of a new server: alice registers as admin, bob registers without roles, a second
registration of alice is refused, alice creates a room, a metric in it and the role "keeper",
and bob adds a reading. -/
def demoHistory : List Op :=
  [ .register (demoEnvWithID 11)
      (mkReq "" "/register" (some ⟨"alice", "pw", "alice@example.com", ["admin"]⟩)),
    .register (demoEnvWithID 12)
      (mkReq "" "/register" (some ⟨"bob", "pw", "bob@example.com", []⟩)),
    .register (demoEnvWithID 13)
      (mkReq "" "/register" (some ⟨"alice", "other", "a2@example.com", []⟩)),
    .createRoom (demoEnvWithID 101) (mkReq "Bearer tokA" "/rooms" (some ⟨"Kitchen", ""⟩)),
    .createMetric (demoEnvWithID 201)
      (mkReq "Bearer tokA" "/metrics" (some ⟨"Power", "", "kWh", 101⟩)),
    .createRole (demoEnvWithID 3)
      (mkReq "Bearer tokA" "/roles" (some ⟨"keeper", "Room keeper", ["manage_rooms"]⟩)),
    .addReading (demoEnvWithID 301) (mkReq "Bearer tokB" demoReadingsPath (some ⟨32, 0⟩)) ]

end HouseholdServer

namespace HouseholdServer

/-! ## Facts about Go maps -/

theorem getEntry_setEntry_self {K V : Type} [DecidableEq K] (k : K) (v : V)
    (l : List (K × V)) : getEntry k (setEntry k v l) = some v := by
  induction l with
  | nil => simp [setEntry, getEntry]
  | cons p t ih =>
    obtain ⟨k1, v1⟩ := p
    by_cases h : k1 = k
    · simp [setEntry, getEntry, h]
    · simp [setEntry, getEntry, h, ih]

theorem getEntry_setEntry_ne {K V : Type} [DecidableEq K] (k x : K) (v : V)
    (l : List (K × V)) (hx : x ≠ k) : getEntry x (setEntry k v l) = getEntry x l := by
  induction l with
  | nil => simp [setEntry, getEntry, Ne.symm hx]
  | cons p t ih =>
    obtain ⟨k1, v1⟩ := p
    by_cases h : k1 = k
    · subst h
      simp [setEntry, getEntry, Ne.symm hx]
    · by_cases h2 : k1 = x
      · subst h2
        simp [setEntry, getEntry, h]
      · simp [setEntry, getEntry, h, h2, ih]

theorem getEntry_deleteEntry {K V : Type} [DecidableEq K] (k x : K) (l : List (K × V)) :
    getEntry x (deleteEntry k l) = if x = k then none else getEntry x l := by
  induction l with
  | nil => simp [deleteEntry, getEntry]
  | cons p t ih =>
    obtain ⟨k1, v1⟩ := p
    unfold deleteEntry at ih ⊢
    by_cases h : k1 = k
    · subst h
      by_cases hx : x = k1
      · simp [List.filter_cons, hx] at ih ⊢
        exact ih
      · have hx2 : ¬ k1 = x := fun hh => hx hh.symm
        simp [List.filter_cons, getEntry, hx, hx2] at ih ⊢
        exact ih
    · by_cases hx : x = k
      · subst hx
        simp [List.filter_cons, getEntry, h] at ih ⊢
        exact ih
      · by_cases h2 : k1 = x
        · simp [List.filter_cons, getEntry, h, hx, h2]
        · simp [List.filter_cons, getEntry, h, hx, h2] at ih ⊢
          exact ih

theorem mem_of_getEntry {K V : Type} [DecidableEq K] (k : K) (v : V) (l : List (K × V))
    (h : getEntry k l = some v) : (k, v) ∈ l := by
  induction l with
  | nil => simp [getEntry] at h
  | cons p t ih =>
    obtain ⟨k1, v1⟩ := p
    by_cases h1 : k1 = k
    · simp [getEntry, h1] at h
      simp [h1, h]
    · simp [getEntry, h1] at h
      exact List.mem_cons_of_mem _ (ih h)

theorem getEntry_of_mem {K V : Type} [DecidableEq K] (k : K) (v : V) (l : List (K × V))
    (hn : (l.map Prod.fst).Nodup) (h : (k, v) ∈ l) : getEntry k l = some v := by
  induction l with
  | nil => simp at h
  | cons p t ih =>
    obtain ⟨k1, v1⟩ := p
    simp only [List.map_cons, List.nodup_cons] at hn
    rcases List.mem_cons.mp h with h1 | h1
    · injection h1 with ha hb
      simp [getEntry, ha, hb]
    · have hk : k1 ≠ k := by
        intro hh
        apply hn.1
        rw [hh]
        exact List.mem_map_of_mem Prod.fst h1
      simp [getEntry, hk, ih hn.2 h1]

namespace GoMap

variable {K V : Type} [DecidableEq K]

theorem get?_set_self (m : GoMap K V) (k : K) (v : V) : (m.set k v).get? k = some v :=
  getEntry_setEntry_self k v m.entries

theorem get?_set_ne (m : GoMap K V) (k x : K) (v : V) (hx : x ≠ k) :
    (m.set k v).get? x = m.get? x :=
  getEntry_setEntry_ne k x v m.entries hx

theorem get?_delete (m : GoMap K V) (k x : K) :
    (m.delete k).get? x = if x = k then none else m.get? x :=
  getEntry_deleteEntry k x m.entries

theorem get?_delete_self (m : GoMap K V) (k : K) : (m.delete k).get? k = none := by
  simp [get?_delete]

theorem get?_delete_of_none (m : GoMap K V) (k x : K) (h : m.get? x = none) :
    (m.delete k).get? x = none := by
  rw [get?_delete]
  split <;> simp [h]

theorem mem_entries_of_get? (m : GoMap K V) (k : K) (v : V) (h : m.get? k = some v) :
    (k, v) ∈ m.entries :=
  mem_of_getEntry k v m.entries h

theorem get?_of_mem_entries (m : GoMap K V) (k : K) (v : V) (h : (k, v) ∈ m.entries) :
    m.get? k = some v :=
  getEntry_of_mem k v m.entries m.nodup h

theorem mem_values_of_get? (m : GoMap K V) (k : K) (v : V) (h : m.get? k = some v) :
    v ∈ m.values :=
  List.mem_map_of_mem Prod.snd (m.mem_entries_of_get? k v h)

end GoMap

end HouseholdServer

namespace HouseholdServer

open Server

/-! ## Facts about the authentication steps and the cascade of `DeleteRoom` -/

theorem callerOf_eq_some (s : Server) (e : Env) (hdr : String) (user : User)
    (h : s.callerOf e hdr = some user) :
    ∃ userID, s.GetUserIDFromToken e hdr = .ok userID ∧ s.users.get? userID = some user := by
  unfold Server.callerOf at h
  split at h
  · simp at h
  · next userID hu => exact ⟨userID, hu, h⟩

theorem GetUserIDFromToken_users (s t : Server) (e : Env) (hdr : String)
    (h : t.users = s.users) : t.GetUserIDFromToken e hdr = s.GetUserIDFromToken e hdr := by
  simp [Server.GetUserIDFromToken, Server.findUserByUsername, h]

theorem deleteRoomMetrics_foldl_frame (id : UUID) (l : List (UUID × Metric)) (st : Server) :
    (l.foldl (deleteRoomStep id) st).users = st.users ∧
    (l.foldl (deleteRoomStep id) st).roles = st.roles ∧
    (l.foldl (deleteRoomStep id) st).rooms = st.rooms := by
  induction l generalizing st with
  | nil => simp
  | cons p t ih =>
    simp only [List.foldl_cons, deleteRoomStep]
    by_cases h : p.2.RoomID = id
    · simp only [if_pos h]
      have := ih { st with metrics := st.metrics.delete p.1, readings := st.readings.delete p.1 }
      exact this
    · simp only [if_neg h]
      exact ih st

theorem deleteRoomMetrics_foldl_none (id : UUID) (l : List (UUID × Metric)) (st : Server)
    (k : UUID) :
    (st.metrics.get? k = none →
      (l.foldl (deleteRoomStep id) st).metrics.get? k = none) ∧
    (st.readings.get? k = none →
      (l.foldl (deleteRoomStep id) st).readings.get? k = none) := by
  induction l generalizing st with
  | nil => simp
  | cons p t ih =>
    simp only [List.foldl_cons, deleteRoomStep]
    by_cases h : p.2.RoomID = id
    · simp only [if_pos h]
      have := ih { st with metrics := st.metrics.delete p.1, readings := st.readings.delete p.1 }
      exact ⟨fun h1 => this.1 (GoMap.get?_delete_of_none _ _ _ h1),
        fun h1 => this.2 (GoMap.get?_delete_of_none _ _ _ h1)⟩
    · simp only [if_neg h]
      exact ih st

theorem deleteRoomMetrics_foldl_hit (id : UUID) (l : List (UUID × Metric)) (st : Server)
    (k : UUID) (m : Metric) (hm : (k, m) ∈ l) (hr : m.RoomID = id) :
    (l.foldl (deleteRoomStep id) st).metrics.get? k = none ∧
    (l.foldl (deleteRoomStep id) st).readings.get? k = none := by
  induction l generalizing st with
  | nil => simp at hm
  | cons p t ih =>
    simp only [List.foldl_cons]
    rcases List.mem_cons.mp hm with h1 | h1
    · subst h1
      simp only [deleteRoomStep, hr, if_true]
      have := deleteRoomMetrics_foldl_none id t
        { st with metrics := st.metrics.delete k, readings := st.readings.delete k } k
      exact ⟨this.1 (GoMap.get?_delete_self _ _), this.2 (GoMap.get?_delete_self _ _)⟩
    · exact ih _ h1

theorem deleteRoomMetrics_users (s : Server) (id : UUID) :
    (s.deleteRoomMetrics id).users = s.users :=
  (deleteRoomMetrics_foldl_frame id s.metrics.entries s).1

theorem deleteRoomMetrics_rooms (s : Server) (id : UUID) :
    (s.deleteRoomMetrics id).rooms = s.rooms :=
  (deleteRoomMetrics_foldl_frame id s.metrics.entries s).2.2

theorem deleteRoomMetrics_hit (s : Server) (id k : UUID) (m : Metric)
    (hm : s.metrics.get? k = some m) (hr : m.RoomID = id) :
    (s.deleteRoomMetrics id).metrics.get? k = none ∧
      (s.deleteRoomMetrics id).readings.get? k = none :=
  deleteRoomMetrics_foldl_hit id s.metrics.entries s k m (s.metrics.mem_entries_of_get? k m hm) hr

/-- What a successful `DeleteRoom` returns. -/
theorem DeleteRoom_admin_eq (s : Server) (e : Env) (r : Request Unit) (user : User)
    (id : UUID) (room : Room)
    (hcaller : s.callerOf e r.authHeader = some user)
    (hadmin : hasAdminRole user = true)
    (hpath : roomIDOfPath e r.path = some id)
    (hroom : s.rooms.get? id = some room) :
    s.DeleteRoom e r =
      (.ok "Room deleted successfully",
        { s.deleteRoomMetrics id with rooms := (s.deleteRoomMetrics id).rooms.delete id }) := by
  obtain ⟨userID, hu, hg⟩ := callerOf_eq_some s e _ user hcaller
  obtain ⟨idStr, hs, hp⟩ := Option.bind_eq_some.mp hpath
  simp [Server.DeleteRoom, hu, hg, hadmin, hs, hp, hroom]

/-- C1: a `DeleteRoom` call by an authenticated admin on a stored room id succeeds, removes the
room, and removes every metric whose `RoomID` is that id together with its readings entry;
afterwards `GetRoom` on the room id and `GetMetric` on each removed metric id, by any
authenticated caller, fail with 404 Not Found. -/
theorem C1_deleteRoom_cascade (s : Server) (e : Env) (r : Request Unit) (user : User)
    (id : UUID) (room : Room)
    (hcaller : s.callerOf e r.authHeader = some user)
    (hadmin : hasAdminRole user = true)
    (hpath : roomIDOfPath e r.path = some id)
    (hroom : s.rooms.get? id = some room) :
    (s.DeleteRoom e r).1 = .ok "Room deleted successfully" ∧
    (s.DeleteRoom e r).2.rooms.get? id = none ∧
    (∀ (mid : UUID) (m : Metric), s.metrics.get? mid = some m → m.RoomID = id →
      (s.DeleteRoom e r).2.metrics.get? mid = none ∧
      (s.DeleteRoom e r).2.readings.get? mid = none) ∧
    (∀ (e2 : Env) (r2 : Request Unit) (uid2 : UUID),
      (s.DeleteRoom e r).2.GetUserIDFromToken e2 r2.authHeader = .ok uid2 →
      roomIDOfPath e2 r2.path = some id →
      (s.DeleteRoom e r).2.GetRoom e2 r2 =
        (.error "Room not found" StatusNotFound, (s.DeleteRoom e r).2)) ∧
    (∀ (mid : UUID) (m : Metric), s.metrics.get? mid = some m → m.RoomID = id →
      ∀ (e2 : Env) (r2 : Request Unit) (uid2 : UUID),
        (s.DeleteRoom e r).2.GetUserIDFromToken e2 r2.authHeader = .ok uid2 →
        metricIDOfPath e2 r2.path = some mid →
        (s.DeleteRoom e r).2.GetMetric e2 r2 =
          (.error "Metric not found" StatusNotFound, (s.DeleteRoom e r).2)) := by
  rw [DeleteRoom_admin_eq s e r user id room hcaller hadmin hpath hroom]
  refine ⟨rfl, GoMap.get?_delete_self _ _, ?_, ?_, ?_⟩
  · intro mid m hm hr
    exact deleteRoomMetrics_hit s id mid m hm hr
  · intro e2 r2 uid2 hauth hp2
    obtain ⟨idStr, hs, hp⟩ := Option.bind_eq_some.mp hp2
    simp [Server.GetRoom, hauth, hs, hp, GoMap.get?_delete_self]
  · intro mid m hm hr e2 r2 uid2 hauth hp2
    obtain ⟨idStr, hs, hp⟩ := Option.bind_eq_some.mp hp2
    simp [Server.GetMetric, hauth, hs, hp, (deleteRoomMetrics_hit s id mid m hm hr).1]

/-- C1 at the demo store: admin alice deletes room 101, which owns metric 201. -/
theorem C1_deleteRoom_cascade_witness :
    (demoStore.DeleteRoom demoEnv (mkReq "Bearer tokA" demoRoomPath none)).1
        = .ok "Room deleted successfully" ∧
      (demoStore.DeleteRoom demoEnv (mkReq "Bearer tokA" demoRoomPath none)).2.metrics.get? 201
        = none ∧
      (demoStore.DeleteRoom demoEnv (mkReq "Bearer tokA" demoRoomPath none)).2.readings.get? 201
        = none :=
  have h := C1_deleteRoom_cascade demoStore demoEnv (mkReq "Bearer tokA" demoRoomPath none)
    demoAlice 101 demoRoom (by decide) (by decide) (by decide) (by decide)
  ⟨h.1, h.2.2.1 201 demoMetric (by decide) (by decide)⟩

end HouseholdServer

namespace HouseholdServer

open Server

/-! ## The role gate -/

theorem hasAdminRole_eq_false (user : User)
    (h : ∀ role ∈ user.Roles, role.Name ≠ "admin") : hasAdminRole user = false := by
  unfold Server.hasAdminRole
  rw [List.any_eq_false]
  intro role hr
  simpa using h role hr

/-- C2: for a caller who authenticates and holds no role named "admin", whatever permission
strings the held roles carry, `CreateRoom`, `DeleteRoom`, `CreateMetric` and `DeleteMetric`
answer 403 Permission denied and return the store as it was, for every body and path. -/
theorem C2_non_admin_forbidden (s : Server) (e : Env) (hdr : String) (user : User)
    (hcaller : s.callerOf e hdr = some user)
    (hnone : ∀ role ∈ user.Roles, role.Name ≠ "admin") :
    (∀ r : Request CreateRoomRequest, r.authHeader = hdr →
      s.CreateRoom e r = (.error "Permission denied" StatusForbidden, s)) ∧
    (∀ r : Request Unit, r.authHeader = hdr →
      s.DeleteRoom e r = (.error "Permission denied" StatusForbidden, s)) ∧
    (∀ r : Request CreateMetricRequest, r.authHeader = hdr →
      s.CreateMetric e r = (.error "Permission denied" StatusForbidden, s)) ∧
    (∀ r : Request Unit, r.authHeader = hdr →
      s.DeleteMetric e r = (.error "Permission denied" StatusForbidden, s)) := by
  obtain ⟨userID, hu, hg⟩ := callerOf_eq_some s e hdr user hcaller
  have hf := hasAdminRole_eq_false user hnone
  refine ⟨?_, ?_, ?_, ?_⟩ <;> intro r hr <;> subst hr
  · simp [Server.CreateRoom, hu, hg, hf]
  · simp [Server.DeleteRoom, hu, hg, hf]
  · simp [Server.CreateMetric, hu, hg, hf]
  · simp [Server.DeleteMetric, hu, hg, hf]

/-- C2 at the demo store: bob holds the custom role "keeper" with the permission
"manage_rooms" and is refused the creation of a room. -/
theorem C2_non_admin_forbidden_witness :
    "manage_rooms" ∈ demoKeeperRole.Permissions ∧ demoKeeperRole ∈ demoBob.Roles ∧
      demoStore.CreateRoom demoEnv (mkReq "Bearer tokB" "/rooms" (some ⟨"Attic", "x"⟩)) =
        (.error "Permission denied" StatusForbidden, demoStore) :=
  ⟨by decide, by decide,
    (C2_non_admin_forbidden demoStore demoEnv "Bearer tokB" demoBob (by decide) (by decide)).1
      (mkReq "Bearer tokB" "/rooms" (some ⟨"Attic", "x"⟩)) rfl⟩

/-! ## Registration -/

theorem any_username_eq_false (s : Server) (name : String)
    (h : ∀ u ∈ s.users.values, u.Username ≠ name) :
    s.users.values.any (fun user => decide (user.Username = name)) = false := by
  rw [List.any_eq_false]
  intro u hu
  simpa using h u hu

/-- C3, refuted as stated: on the start-up store a registration that asks only for the unknown
role "ghost" succeeds and the created user holds no role at all, not the "user" role. -/
theorem C3_unknown_roles_counterexample :
    (NewServer 1 2).roles.get? "ghost" = none ∧
      ((NewServer 1 2).Register demoEnv
          (mkReq "" "/register" (some ⟨"carol", "pw", "carol@example.com", ["ghost"]⟩))).1 =
        .ok
          { Token := "carol"
            User :=
              { ID := 900, Username := "carol", Password := "pw", Email := "carol@example.com",
                Roles := [], CreatedAt := 1000, UpdatedAt := 1000 } } ∧
      ((NewServer 1 2).Register demoEnv
          (mkReq "" "/register" (some ⟨"carol", "pw", "carol@example.com", ["ghost"]⟩))).2.users.get?
          900 =
        some
          { ID := 900, Username := "carol", Password := "pw", Email := "carol@example.com",
            Roles := [], CreatedAt := 1000, UpdatedAt := 1000 } := by
  decide

/-- C3, amended: in a store whose catalog has the "user" role, a registration under a free
username stores the new user (and answers with it whenever the token is generated); unknown
role names are dropped without failing, so a non-empty request list gives exactly the catalog
roles of the names that resolve, in request order, and an empty request list gives exactly one
role, the catalog's "user" role. -/
theorem C3_register_roles (s : Server) (e : Env) (r : Request RegisterRequest)
    (req : RegisterRequest) (userRole : Role)
    (hbody : r.body = some req)
    (hfree : ∀ u ∈ s.users.values, u.Username ≠ req.Username)
    (hdefault : s.roles.get? "user" = some userRole) :
    ∃ user : User,
      (s.Register e r).2.users.get? (e.uuidNew 0) = some user ∧
      user.Username = req.Username ∧
      (∀ token, GenerateToken e 1 user = .ok token →
        (s.Register e r).1 = .ok { Token := token, User := user }) ∧
      (req.Roles = [] → user.Roles = [userRole]) ∧
      (req.Roles ≠ [] → user.Roles = req.Roles.filterMap (fun roleName => s.roles.get? roleName)) := by
  have hany := any_username_eq_false s req.Username hfree
  by_cases hr : req.Roles = []
  · refine
      ⟨{  ID := e.uuidNew 0
          Username := req.Username
          Password := req.Password
          Email := req.Email
          Roles := [userRole]
          CreatedAt := e.now 0
          UpdatedAt := e.now 0 },
        ?_, rfl, ?_, fun _ => rfl, fun h => absurd hr h⟩
    · simp only [Server.Register, hbody, hany, hr, hdefault]
      simp only [Bool.false_eq_true, if_false, List.length_nil, if_true, Option.map_some']
      generalize GenerateToken e 1 _ = g
      cases g <;> simp [GoMap.get?_set_self]
    · intro token ht
      simp only [Server.Register, hbody, hany, hr, hdefault]
      simp [ht]
  · have hlen : ¬ req.Roles.length = 0 := by
      simpa [List.length_eq_zero] using hr
    refine
      ⟨{  ID := e.uuidNew 0
          Username := req.Username
          Password := req.Password
          Email := req.Email
          Roles := req.Roles.filterMap (fun roleName => s.roles.get? roleName)
          CreatedAt := e.now 0
          UpdatedAt := e.now 0 },
        ?_, rfl, ?_, fun h => absurd h hr, fun _ => rfl⟩
    · simp only [Server.Register, hbody, hany, hlen]
      simp only [Bool.false_eq_true, if_false, List.length_nil, if_true, Option.map_some']
      generalize GenerateToken e 1 _ = g
      cases g <;> simp [GoMap.get?_set_self]
    · intro token ht
      simp only [Server.Register, hbody, hany, hlen]
      simp [ht]

/-- C3 amended, at the start-up store: a registration without role names gives the "user"
role. -/
theorem C3_register_roles_witness :
    ∃ user : User,
      ((NewServer 1 2).Register demoEnv
          (mkReq "" "/register" (some ⟨"carol", "pw", "carol@example.com", []⟩))).2.users.get?
          900 = some user ∧
      user.Roles = [demoUserRole] := by
  obtain ⟨user, h1, _, _, h4, _⟩ :=
    C3_register_roles (NewServer 1 2) demoEnv
      (mkReq "" "/register" (some ⟨"carol", "pw", "carol@example.com", []⟩))
      ⟨"carol", "pw", "carol@example.com", []⟩ demoUserRole rfl (by decide) (by decide)
  exact ⟨user, h1, h4 rfl⟩

end HouseholdServer

namespace HouseholdServer

open Server

/-! ## Authentication failures -/

theorem GetUserIDFromToken_of_invalid (s : Server) (e : Env) (hdr err : String)
    (h : ValidateToken e hdr = .error err) : s.GetUserIDFromToken e hdr = .error err := by
  simp [Server.GetUserIDFromToken, h]

theorem GetUserIDFromToken_of_unknown (s : Server) (e : Env) (hdr : String) (claims : Claims)
    (h : ValidateToken e hdr = .ok claims)
    (hu : s.findUserByUsername claims.Username = none) :
    s.GetUserIDFromToken e hdr = .error "user not found" := by
  simp [Server.GetUserIDFromToken, h, hu]

/-- C4, the code at the failing input: in the demo store the token "tokG" validates and
carries the username "ghost", which no stored user has.  `ListUsers` and `CreateRole` answer
404 User not found; the ten handlers that go through `GetUserIDFromToken` answer
401 Unauthorized, exactly what `CreateRoom` answers for the rejected token "bad". -/
theorem C4_unknown_user_responses :
    ValidateToken demoEnv "Bearer tokG" = .ok ⟨"3", "ghost", none, none⟩ ∧
    demoStore.findUserByUsername "ghost" = none ∧
    (demoStore.ListUsers demoEnv (mkReq "Bearer tokG" "/users" none)).1
      = .error "User not found" StatusNotFound ∧
    (demoStore.CreateRole demoEnv (mkReq "Bearer tokG" "/roles" (some ⟨"r", "d", []⟩))).1
      = .error "User not found" StatusNotFound ∧
    (demoStore.CreateRoom demoEnv (mkReq "Bearer tokG" "/rooms" (some ⟨"Attic", "x"⟩))).1
      = .error "Unauthorized" StatusUnauthorized ∧
    (demoStore.CreateRoom demoEnv (mkReq "Bearer bad" "/rooms" (some ⟨"Attic", "x"⟩))).1
      = .error "Unauthorized" StatusUnauthorized ∧
    (demoStore.ListRooms demoEnv (mkReq "Bearer tokG" "/rooms" none)).1
      = .error "Unauthorized" StatusUnauthorized ∧
    (demoStore.GetRoom demoEnv (mkReq "Bearer tokG" demoRoomPath none)).1
      = .error "Unauthorized" StatusUnauthorized ∧
    (demoStore.DeleteRoom demoEnv (mkReq "Bearer tokG" demoRoomPath none)).1
      = .error "Unauthorized" StatusUnauthorized ∧
    (demoStore.CreateMetric demoEnv
        (mkReq "Bearer tokG" "/metrics" (some ⟨"Gas", "", "m3", 101⟩))).1
      = .error "Unauthorized" StatusUnauthorized ∧
    (demoStore.ListMetrics demoEnv (mkReq "Bearer tokG" "/metrics" none)).1
      = .error "Unauthorized" StatusUnauthorized ∧
    (demoStore.GetMetric demoEnv (mkReq "Bearer tokG" demoMetricPath none)).1
      = .error "Unauthorized" StatusUnauthorized ∧
    (demoStore.DeleteMetric demoEnv (mkReq "Bearer tokG" demoMetricPath none)).1
      = .error "Unauthorized" StatusUnauthorized ∧
    (demoStore.AddReading demoEnv
        (mkReq "Bearer tokG" demoReadingsPath (some ⟨7, 0⟩))).1
      = .error "Unauthorized" StatusUnauthorized ∧
    (demoStore.GetReadings demoEnv (mkReq "Bearer tokG" demoReadingsPath none)).1
      = .error "Unauthorized" StatusUnauthorized := by
  decide

/-- C5: when some stored user already has the requested username, `Register` answers with the
username-taken failure (400 "Username already taken", the code's conflict failure) and returns
the store as it was: the users map has the same entries, so every stored record keeps all its
fields and the username lookup finds the same user as before. -/
theorem C5_register_duplicate_username (s : Server) (e : Env) (r : Request RegisterRequest)
    (req : RegisterRequest) (existing : User)
    (hbody : r.body = some req)
    (hmem : existing ∈ s.users.values)
    (hname : existing.Username = req.Username) :
    s.Register e r = (.error "Username already taken" StatusBadRequest, s) ∧
    (s.Register e r).2.users.entries = s.users.entries ∧
    (∀ (k : UUID) (u : User), s.users.get? k = some u →
      (s.Register e r).2.users.get? k = some u) ∧
    (s.Register e r).2.findUserByUsername req.Username = s.findUserByUsername req.Username ∧
    (∃ found : User, (s.Register e r).2.findUserByUsername req.Username = some found ∧
      found ∈ s.users.values ∧ found.Username = req.Username) := by
  have hany : s.users.values.any (fun user => decide (user.Username = req.Username)) = true := by
    rw [List.any_eq_true]
    exact ⟨existing, hmem, by simpa using hname⟩
  have hreg : s.Register e r = (.error "Username already taken" StatusBadRequest, s) := by
    simp only [Server.Register, hbody, hany, if_true]
  rw [hreg]
  refine ⟨rfl, rfl, fun k u h => h, rfl, ?_⟩
  cases hf : s.users.values.find? (fun u => decide (u.Username = req.Username)) with
  | none =>
    rw [List.find?_eq_none] at hf
    exact absurd (by simpa using hname) (hf existing hmem)
  | some found =>
    refine ⟨found, hf, List.mem_of_find?_eq_some hf, ?_⟩
    simpa using List.find?_some hf

/-- C5 at the demo store: a second registration of "alice" is refused and alice is still the
admin user stored under id 11. -/
theorem C5_register_duplicate_username_witness :
    (demoStore.Register demoEnv
        (mkReq "" "/register" (some ⟨"alice", "other", "a2@example.com", []⟩))).1 =
      .error "Username already taken" StatusBadRequest ∧
    (demoStore.Register demoEnv
        (mkReq "" "/register" (some ⟨"alice", "other", "a2@example.com", []⟩))).2.users.get? 11 =
      some demoAlice :=
  have h := C5_register_duplicate_username demoStore demoEnv
    (mkReq "" "/register" (some ⟨"alice", "other", "a2@example.com", []⟩))
    ⟨"alice", "other", "a2@example.com", []⟩ demoAlice rfl (by decide) (by decide)
  ⟨congrArg Prod.fst h.1, h.2.2.1 11 demoAlice (by decide)⟩

end HouseholdServer

namespace HouseholdServer

open Server

/-! ## Deleting a metric -/

/-- What a successful `DeleteMetric` returns. -/
theorem DeleteMetric_admin_eq (s : Server) (e : Env) (r : Request Unit) (user : User)
    (id : UUID) (metric : Metric)
    (hcaller : s.callerOf e r.authHeader = some user)
    (hadmin : hasAdminRole user = true)
    (hpath : metricIDOfPath e r.path = some id)
    (hmetric : s.metrics.get? id = some metric) :
    s.DeleteMetric e r =
      (.ok "Metric deleted successfully",
        { s with metrics := s.metrics.delete id, readings := s.readings.delete id }) := by
  obtain ⟨userID, hu, hg⟩ := callerOf_eq_some s e _ user hcaller
  obtain ⟨idStr, hs, hp⟩ := Option.bind_eq_some.mp hpath
  simp [Server.DeleteMetric, hu, hg, hadmin, hs, hp, hmetric]

/-- C6: a `DeleteMetric` call by an authenticated admin on a stored metric id succeeds and
removes the metric and its readings entry; a following `GetReadings` or `GetMetric` on that
id, by any authenticated caller, answers 404 Metric not found, not an empty list. -/
theorem C6_deleteMetric_then_not_found (s : Server) (e : Env) (r : Request Unit) (user : User)
    (id : UUID) (metric : Metric)
    (hcaller : s.callerOf e r.authHeader = some user)
    (hadmin : hasAdminRole user = true)
    (hpath : metricIDOfPath e r.path = some id)
    (hmetric : s.metrics.get? id = some metric) :
    (s.DeleteMetric e r).1 = .ok "Metric deleted successfully" ∧
    (s.DeleteMetric e r).2.metrics.get? id = none ∧
    (s.DeleteMetric e r).2.readings.get? id = none ∧
    (∀ (e2 : Env) (r2 : Request Unit) (uid2 : UUID),
      (s.DeleteMetric e r).2.GetUserIDFromToken e2 r2.authHeader = .ok uid2 →
      readingsIDOfPath e2 r2.path = some id →
      (s.DeleteMetric e r).2.GetReadings e2 r2 =
        (.error "Metric not found" StatusNotFound, (s.DeleteMetric e r).2)) ∧
    (∀ (e2 : Env) (r2 : Request Unit) (uid2 : UUID),
      (s.DeleteMetric e r).2.GetUserIDFromToken e2 r2.authHeader = .ok uid2 →
      metricIDOfPath e2 r2.path = some id →
      (s.DeleteMetric e r).2.GetMetric e2 r2 =
        (.error "Metric not found" StatusNotFound, (s.DeleteMetric e r).2)) := by
  rw [DeleteMetric_admin_eq s e r user id metric hcaller hadmin hpath hmetric]
  refine ⟨rfl, GoMap.get?_delete_self _ _, GoMap.get?_delete_self _ _, ?_, ?_⟩
  · intro e2 r2 uid2 hauth hp2
    obtain ⟨idStr, hs, hp⟩ := Option.bind_eq_some.mp hp2
    simp [Server.GetReadings, hauth, hs, hp, GoMap.get?_delete_self]
  · intro e2 r2 uid2 hauth hp2
    obtain ⟨idStr, hs, hp⟩ := Option.bind_eq_some.mp hp2
    simp [Server.GetMetric, hauth, hs, hp, GoMap.get?_delete_self]

/-- C6 at the demo store: alice deletes metric 201, then bob (not an admin) asks for its
readings. -/
theorem C6_deleteMetric_then_not_found_witness :
    (demoStore.DeleteMetric demoEnv (mkReq "Bearer tokA" demoMetricPath none)).1
        = .ok "Metric deleted successfully" ∧
      ((demoStore.DeleteMetric demoEnv (mkReq "Bearer tokA" demoMetricPath none)).2.GetReadings
          demoEnv (mkReq "Bearer tokB" demoReadingsPath none)).1
        = .error "Metric not found" StatusNotFound :=
  have h := C6_deleteMetric_then_not_found demoStore demoEnv
    (mkReq "Bearer tokA" demoMetricPath none) demoAlice 201 demoMetric
    (by decide) (by decide) (by decide) (by decide)
  ⟨h.1, congrArg Prod.fst
    (h.2.2.2.1 demoEnv (mkReq "Bearer tokB" demoReadingsPath none) 12
      (by decide) (by decide))⟩

/-! ## Requests without a valid token -/

/-- C7: when `ValidateToken` fails on the request's `Authorization` header (absent, malformed
or rejected by the parser), each of the twelve protected handlers answers 401 Unauthorized and
returns the store as it was, whatever the caller's roles, the path and the body are. -/
theorem C7_invalid_token_unauthorized (s : Server) (e : Env) (hdr err : String)
    (hinvalid : ValidateToken e hdr = .error err) :
    (∀ r : Request Unit, r.authHeader = hdr →
      s.ListUsers e r = (.error "Unauthorized" StatusUnauthorized, s)) ∧
    (∀ r : Request CreateRoleRequest, r.authHeader = hdr →
      s.CreateRole e r = (.error "Unauthorized" StatusUnauthorized, s)) ∧
    (∀ r : Request CreateRoomRequest, r.authHeader = hdr →
      s.CreateRoom e r = (.error "Unauthorized" StatusUnauthorized, s)) ∧
    (∀ r : Request Unit, r.authHeader = hdr →
      s.ListRooms e r = (.error "Unauthorized" StatusUnauthorized, s)) ∧
    (∀ r : Request Unit, r.authHeader = hdr →
      s.GetRoom e r = (.error "Unauthorized" StatusUnauthorized, s)) ∧
    (∀ r : Request Unit, r.authHeader = hdr →
      s.DeleteRoom e r = (.error "Unauthorized" StatusUnauthorized, s)) ∧
    (∀ r : Request CreateMetricRequest, r.authHeader = hdr →
      s.CreateMetric e r = (.error "Unauthorized" StatusUnauthorized, s)) ∧
    (∀ r : Request Unit, r.authHeader = hdr →
      s.ListMetrics e r = (.error "Unauthorized" StatusUnauthorized, s)) ∧
    (∀ r : Request Unit, r.authHeader = hdr →
      s.GetMetric e r = (.error "Unauthorized" StatusUnauthorized, s)) ∧
    (∀ r : Request Unit, r.authHeader = hdr →
      s.DeleteMetric e r = (.error "Unauthorized" StatusUnauthorized, s)) ∧
    (∀ r : Request AddReadingRequest, r.authHeader = hdr →
      s.AddReading e r = (.error "Unauthorized" StatusUnauthorized, s)) ∧
    (∀ r : Request Unit, r.authHeader = hdr →
      s.GetReadings e r = (.error "Unauthorized" StatusUnauthorized, s)) := by
  have hg := GetUserIDFromToken_of_invalid s e hdr err hinvalid
  refine ⟨?_, ?_, ?_, ?_, ?_, ?_, ?_, ?_, ?_, ?_, ?_, ?_⟩ <;> intro r hr <;> subst hr
  · simp [Server.ListUsers, hinvalid]
  · simp [Server.CreateRole, hinvalid]
  · simp [Server.CreateRoom, hg]
  · simp [Server.ListRooms, hg]
  · simp [Server.GetRoom, hg]
  · simp [Server.DeleteRoom, hg]
  · simp [Server.CreateMetric, hg]
  · simp [Server.ListMetrics, hg]
  · simp [Server.GetMetric, hg]
  · simp [Server.DeleteMetric, hg]
  · simp [Server.AddReading, hg]
  · simp [Server.GetReadings, hg]

/-- C7 at the demo store: without an `Authorization` header `DeleteRoom` answers 401 even
though the path names no well-formed id, and with a malformed header so does `AddReading`. -/
theorem C7_invalid_token_unauthorized_witness :
    demoStore.DeleteRoom demoEnv (mkReq "" "/rooms/zzz" none) =
        (.error "Unauthorized" StatusUnauthorized, demoStore) ∧
      demoStore.AddReading demoEnv (mkReq "Token tokA" "/metrics/zzz/readings" none) =
        (.error "Unauthorized" StatusUnauthorized, demoStore) :=
  ⟨(C7_invalid_token_unauthorized demoStore demoEnv "" ErrSignatureInvalid
      (by decide)).2.2.2.2.2.1 (mkReq "" "/rooms/zzz" none) rfl,
    (C7_invalid_token_unauthorized demoStore demoEnv "Token tokA" ErrSignatureInvalid
      (by decide)).2.2.2.2.2.2.2.2.2.2.1 (mkReq "Token tokA" "/metrics/zzz/readings" none) rfl⟩

end HouseholdServer

namespace HouseholdServer

open Server

/-! ## Creating rooms and metrics -/

/-- C8: for an authenticated admin and an id generator whose next id is not yet a key,
`CreateRoom` returns a room with the generated id and the requested name and description,
a following `GetRoom` on that id returns the same room and `ListRooms` contains it;
`CreateMetric` for a stored room returns a metric with the generated id and the requested
name, description, unit and room id, and a following `GetMetric` on that id returns it with an
empty readings list.  In both cases the returned id was not a key before the call. -/
theorem C8_create_then_get (s : Server) (e : Env) (hdr : String) (user : User)
    (hcaller : s.callerOf e hdr = some user)
    (hadmin : hasAdminRole user = true) :
    (∀ (r : Request CreateRoomRequest) (req : CreateRoomRequest),
      r.authHeader = hdr → r.body = some req → s.rooms.get? (e.uuidNew 0) = none →
      ∃ room : Room,
        (s.CreateRoom e r).1 = .ok room ∧
        room.ID = e.uuidNew 0 ∧ room.Name = req.Name ∧ room.Description = req.Description ∧
        s.rooms.get? room.ID = none ∧
        (∀ (e2 : Env) (r2 : Request Unit) (uid2 : UUID),
          (s.CreateRoom e r).2.GetUserIDFromToken e2 r2.authHeader = .ok uid2 →
          roomIDOfPath e2 r2.path = some room.ID →
          (s.CreateRoom e r).2.GetRoom e2 r2 = (.ok room, (s.CreateRoom e r).2)) ∧
        (∀ (e2 : Env) (r2 : Request Unit) (uid2 : UUID),
          (s.CreateRoom e r).2.GetUserIDFromToken e2 r2.authHeader = .ok uid2 →
          ∃ resp : RoomListResponse,
            (s.CreateRoom e r).2.ListRooms e2 r2 = (.ok resp, (s.CreateRoom e r).2) ∧
            room ∈ resp.Rooms)) ∧
    (∀ (r : Request CreateMetricRequest) (req : CreateMetricRequest) (room : Room),
      r.authHeader = hdr → r.body = some req → s.rooms.get? req.RoomID = some room →
      s.metrics.get? (e.uuidNew 0) = none →
      ∃ metric : Metric,
        (s.CreateMetric e r).1 = .ok metric ∧
        metric.ID = e.uuidNew 0 ∧ metric.Name = req.Name ∧
        metric.Description = req.Description ∧ metric.Unit = req.Unit ∧
        metric.RoomID = req.RoomID ∧
        s.metrics.get? metric.ID = none ∧
        (∀ (e2 : Env) (r2 : Request Unit) (uid2 : UUID),
          (s.CreateMetric e r).2.GetUserIDFromToken e2 r2.authHeader = .ok uid2 →
          metricIDOfPath e2 r2.path = some metric.ID →
          (s.CreateMetric e r).2.GetMetric e2 r2 =
            (.ok { Metric := metric, Readings := [] }, (s.CreateMetric e r).2))) := by
  obtain ⟨userID, hu, hg⟩ := callerOf_eq_some s e hdr user hcaller
  constructor
  · intro r req hr hbody hfresh
    subst hr
    have hcr : s.CreateRoom e r =
        (.ok ⟨e.uuidNew 0, req.Name, req.Description, e.now 0, e.now 0⟩,
          { s with
            rooms :=
              s.rooms.set (e.uuidNew 0)
                ⟨e.uuidNew 0, req.Name, req.Description, e.now 0, e.now 0⟩ }) := by
      simp [Server.CreateRoom, hu, hg, hadmin, hbody]
    rw [hcr]
    refine ⟨_, rfl, rfl, rfl, rfl, hfresh, ?_, ?_⟩
    · intro e2 r2 uid2 hauth hp2
      obtain ⟨idStr, hs, hp⟩ := Option.bind_eq_some.mp hp2
      simp [Server.GetRoom, hauth, hs, hp, GoMap.get?_set_self]
    · intro e2 r2 uid2 hauth
      refine ⟨_, by simp only [Server.ListRooms, hauth]; rfl, ?_⟩
      exact GoMap.mem_values_of_get? _ (e.uuidNew 0) _ (GoMap.get?_set_self _ _ _)
  · intro r req room hr hbody hroom hfresh
    subst hr
    have hcm : s.CreateMetric e r =
        (.ok ⟨e.uuidNew 0, req.Name, req.Description, req.Unit, req.RoomID, e.now 0, e.now 0⟩,
          { s with
            metrics :=
              s.metrics.set (e.uuidNew 0)
                ⟨e.uuidNew 0, req.Name, req.Description, req.Unit, req.RoomID, e.now 0, e.now 0⟩
            readings := s.readings.set (e.uuidNew 0) [] }) := by
      simp [Server.CreateMetric, hu, hg, hadmin, hbody, hroom]
    rw [hcm]
    refine ⟨_, rfl, rfl, rfl, rfl, rfl, rfl, hfresh, ?_⟩
    intro e2 r2 uid2 hauth hp2
    obtain ⟨idStr, hs, hp⟩ := Option.bind_eq_some.mp hp2
    simp [Server.GetMetric, hauth, hs, hp, GoMap.get?_set_self]

/-- C8 at the demo store: alice creates a metric in room 101 under the fresh id 900. -/
theorem C8_create_then_get_witness :
    ∃ metric : Metric,
      (demoStore.CreateMetric demoEnv
          (mkReq "Bearer tokA" "/metrics" (some ⟨"Gas", "", "m3", 101⟩))).1 = .ok metric ∧
      metric.ID = 900 ∧ metric.Name = "Gas" ∧ metric.RoomID = 101 := by
  obtain ⟨metric, h1, h2, h3, _, _, h6, _⟩ :=
    (C8_create_then_get demoStore demoEnv "Bearer tokA" demoAlice (by decide) (by decide)).2
      (mkReq "Bearer tokA" "/metrics" (some ⟨"Gas", "", "m3", 101⟩)) ⟨"Gas", "", "m3", 101⟩
      demoRoom rfl rfl (by decide) (by decide)
  exact ⟨metric, h1, h2, h3, h6⟩

/-- C9, refuted as stated: for admin alice, `CreateMetric` with the room id 201, which is no
stored room, answers with status 400, while `GetRoom` and `DeleteRoom` on that missing room
id answer with status 404; the two failures differ. -/
theorem C9_missing_room_counterexample :
    demoStore.rooms.get? 201 = none ∧
    (demoStore.CreateMetric demoEnv
        (mkReq "Bearer tokA" "/metrics" (some ⟨"Gas", "", "m3", 201⟩))).1
      = .error "Room not found" 400 ∧
    (demoStore.GetRoom demoEnv (mkReq "Bearer tokA" demoMissingRoomPath none)).1
      = .error "Room not found" 404 ∧
    (demoStore.DeleteRoom demoEnv (mkReq "Bearer tokA" demoMissingRoomPath none)).1
      = .error "Room not found" 404 ∧
    (demoStore.CreateMetric demoEnv
        (mkReq "Bearer tokA" "/metrics" (some ⟨"Gas", "", "m3", 201⟩))).1
      ≠ .error "Room not found" StatusNotFound := by
  decide

/-- C9, amended: for an authenticated admin, a `CreateMetric` call whose room id is not the id
of a stored room answers 400 Bad Request with the message "Room not found" (a status other
than the 404 of `GetRoom` and `DeleteRoom`) and returns the store as it was, so metrics and
readings are unchanged. -/
theorem C9_createMetric_missing_room (s : Server) (e : Env) (r : Request CreateMetricRequest)
    (req : CreateMetricRequest) (user : User)
    (hcaller : s.callerOf e r.authHeader = some user)
    (hadmin : hasAdminRole user = true)
    (hbody : r.body = some req)
    (hroom : s.rooms.get? req.RoomID = none) :
    s.CreateMetric e r = (.error "Room not found" StatusBadRequest, s) ∧
    StatusBadRequest ≠ StatusNotFound ∧
    (s.CreateMetric e r).2.metrics.entries = s.metrics.entries ∧
    (s.CreateMetric e r).2.readings.entries = s.readings.entries := by
  obtain ⟨userID, hu, hg⟩ := callerOf_eq_some s e _ user hcaller
  have h : s.CreateMetric e r = (.error "Room not found" StatusBadRequest, s) := by
    simp [Server.CreateMetric, hu, hg, hadmin, hbody, hroom]
  rw [h]
  exact ⟨rfl, by decide, rfl, rfl⟩

/-- C9 amended, at the demo store. -/
theorem C9_createMetric_missing_room_witness :
    demoStore.CreateMetric demoEnv
        (mkReq "Bearer tokA" "/metrics" (some ⟨"Gas", "", "m3", 201⟩)) =
      (.error "Room not found" StatusBadRequest, demoStore) :=
  (C9_createMetric_missing_room demoStore demoEnv
    (mkReq "Bearer tokA" "/metrics" (some ⟨"Gas", "", "m3", 201⟩)) ⟨"Gas", "", "m3", 201⟩
    demoAlice (by decide) (by decide) rfl (by decide)).1

end HouseholdServer

namespace HouseholdServer

open Server

/-! ## Adding a reading -/

/-- C10: for any authenticated caller, `AddReading` on a stored metric id answers with a new
reading whose `MetricID` is that id and whose value is the requested one, whose timestamp is
the request's timestamp when the request carries one (a non-zero time) and the current time
otherwise, and stores it as the last element of that metric's readings list, leaving every
other readings list and the other four maps as they were; on a metric id that is not stored it
answers 404 Metric not found and returns the store as it was. -/
theorem C10_addReading (s : Server) (e : Env) (r : Request AddReadingRequest)
    (uid id : UUID)
    (hauth : s.GetUserIDFromToken e r.authHeader = .ok uid)
    (hpath : readingsIDOfPath e r.path = some id) :
    (∀ (metric : Metric) (req : AddReadingRequest),
      s.metrics.get? id = some metric → r.body = some req →
      ∃ reading : MetricReading,
        (s.AddReading e r).1 = .ok reading ∧
        reading.MetricID = id ∧ reading.Value = req.Value ∧
        (req.Timestamp ≠ 0 → reading.Timestamp = req.Timestamp) ∧
        (req.Timestamp = 0 → reading.Timestamp = e.now 0) ∧
        (s.AddReading e r).2.readings.get? id
          = some ((s.readings.get? id).getD [] ++ [reading]) ∧
        (∀ k : UUID, k ≠ id → (s.AddReading e r).2.readings.get? k = s.readings.get? k) ∧
        (s.AddReading e r).2.users = s.users ∧
        (s.AddReading e r).2.roles = s.roles ∧
        (s.AddReading e r).2.rooms = s.rooms ∧
        (s.AddReading e r).2.metrics = s.metrics) ∧
    (s.metrics.get? id = none →
      s.AddReading e r = (.error "Metric not found" StatusNotFound, s)) := by
  obtain ⟨idStr, hs, hp⟩ := Option.bind_eq_some.mp hpath
  constructor
  · intro metric req hm hbody
    have hadd : s.AddReading e r =
        (.ok
            ⟨e.uuidNew 0, id, req.Value, if req.Timestamp = 0 then e.now 0 else req.Timestamp,
              if req.Timestamp = 0 then e.now 1 else e.now 0⟩,
          { s with
            readings :=
              s.readings.set id
                ((s.readings.get? id).getD [] ++
                  [⟨e.uuidNew 0, id, req.Value,
                    if req.Timestamp = 0 then e.now 0 else req.Timestamp,
                    if req.Timestamp = 0 then e.now 1 else e.now 0⟩]) }) := by
      simp [Server.AddReading, hauth, hs, hp, hm, hbody]
    rw [hadd]
    refine ⟨_, rfl, rfl, rfl, ?_, ?_, GoMap.get?_set_self _ _ _, ?_, rfl, rfl, rfl, rfl⟩
    · intro hne
      simp [hne]
    · intro hz
      simp [hz]
    · intro k hk
      exact GoMap.get?_set_ne _ _ _ _ hk
  · intro hm
    simp [Server.AddReading, hauth, hs, hp, hm]

/-- C10 at the demo store: bob, who is no admin, adds a reading without a timestamp to metric
201, which already has one reading. -/
theorem C10_addReading_witness :
    ∃ reading : MetricReading,
      (demoStore.AddReading demoEnv
          (mkReq "Bearer tokB" demoReadingsPath (some ⟨7, 0⟩))).2.readings.get? 201
        = some ([demoReading] ++ [reading]) ∧
      reading.MetricID = 201 ∧ reading.Value = 7 ∧ reading.Timestamp = demoEnv.now 0 := by
  obtain ⟨reading, _, h2, h3, _, h5, h6, _⟩ :=
    (C10_addReading demoStore demoEnv
      (mkReq "Bearer tokB" demoReadingsPath (some ⟨7, 0⟩)) 12 201
      (by decide) (by decide)).1 demoMetric ⟨7, 0⟩ (by decide) rfl
  exact ⟨reading, h6, h2, h3, h5 rfl⟩

end HouseholdServer

namespace HouseholdServer

open Server

/-! ## What each handler does to the store -/

theorem Register_state (s : Server) (e : Env) (r : Request RegisterRequest) :
    (s.Register e r).2 = s ∨
    ∃ user : User, user.ID = e.uuidNew 0 ∧
      (∀ u ∈ s.users.values, u.Username ≠ user.Username) ∧
      (s.Register e r).2 = { s with users := s.users.set user.ID user } := by
  unfold Server.Register
  split
  · exact Or.inl rfl
  · next req hb =>
    split
    · exact Or.inl rfl
    · next hany =>
      have hfree : ∀ u ∈ s.users.values, u.Username ≠ req.Username := by
        intro u hu hname
        apply hany
        rw [List.any_eq_true]
        exact ⟨u, hu, by simpa using hname⟩
      dsimp only
      split
      · exact Or.inl rfl
      · next userRoles hr =>
        refine Or.inr
          ⟨⟨e.uuidNew 0, req.Username, req.Password, req.Email, userRoles, e.now 0, e.now 0⟩,
            rfl, hfree, ?_⟩
        split <;> rfl

theorem Login_state (s : Server) (e : Env) (r : Request LoginRequest) :
    (s.Login e r).2 = s := by
  unfold Server.Login
  repeat' split
  all_goals rfl

theorem ListUsers_state (s : Server) (e : Env) (r : Request Unit) :
    (s.ListUsers e r).2 = s := by
  unfold Server.ListUsers
  repeat' split
  all_goals rfl

theorem CreateRole_state (s : Server) (e : Env) (r : Request CreateRoleRequest) :
    (s.CreateRole e r).2 = s ∨
    ∃ role : Role, s.roles.get? role.Name = none ∧
      (s.CreateRole e r).2 = { s with roles := s.roles.set role.Name role } := by
  unfold Server.CreateRole
  split
  · exact Or.inl rfl
  · split
    · exact Or.inl rfl
    · split
      · exact Or.inl rfl
      · split
        · exact Or.inl rfl
        · next req hb =>
          split
          · exact Or.inl rfl
          · next hnew =>
            refine Or.inr ⟨⟨e.uuidNew 0, req.Name, req.Description, req.Permissions⟩, ?_, rfl⟩
            simpa using hnew

theorem CreateRoom_state (s : Server) (e : Env) (r : Request CreateRoomRequest) :
    (s.CreateRoom e r).2 = s ∨
    ∃ room : Room, room.ID = e.uuidNew 0 ∧
      (s.CreateRoom e r).2 = { s with rooms := s.rooms.set room.ID room } := by
  unfold Server.CreateRoom
  repeat' split
  all_goals first
    | exact Or.inl rfl
    | exact Or.inr ⟨_, rfl, rfl⟩

theorem ListRooms_state (s : Server) (e : Env) (r : Request Unit) :
    (s.ListRooms e r).2 = s := by
  unfold Server.ListRooms
  repeat' split
  all_goals rfl

theorem GetRoom_state (s : Server) (e : Env) (r : Request Unit) :
    (s.GetRoom e r).2 = s := by
  unfold Server.GetRoom
  repeat' split
  all_goals rfl

theorem DeleteRoom_state (s : Server) (e : Env) (r : Request Unit) :
    (s.DeleteRoom e r).2 = s ∨
    ∃ id : UUID, roomIDOfPath e r.path = some id ∧ (s.rooms.get? id).isSome = true ∧
      (s.DeleteRoom e r).1 = .ok "Room deleted successfully" ∧
      (s.DeleteRoom e r).2 =
        { s.deleteRoomMetrics id with rooms := (s.deleteRoomMetrics id).rooms.delete id } := by
  unfold Server.DeleteRoom
  split
  · exact Or.inl rfl
  · split
    · exact Or.inl rfl
    · split
      · exact Or.inl rfl
      · split
        · exact Or.inl rfl
        · next idStr hs =>
          split
          · exact Or.inl rfl
          · next id hp =>
            split
            · exact Or.inl rfl
            · next hroom =>
              refine Or.inr ⟨id, ?_, ?_, rfl, rfl⟩
              · simp [roomIDOfPath, hs, hp]
              · cases hr : s.rooms.get? id <;> simp [hr] at hroom ⊢

theorem CreateMetric_state (s : Server) (e : Env) (r : Request CreateMetricRequest) :
    (s.CreateMetric e r).2 = s ∨
    ∃ metric : Metric, metric.ID = e.uuidNew 0 ∧
      (s.rooms.get? metric.RoomID).isSome = true ∧
      (s.CreateMetric e r).2 =
        { s with
          metrics := s.metrics.set metric.ID metric
          readings := s.readings.set metric.ID [] } := by
  unfold Server.CreateMetric
  split
  · exact Or.inl rfl
  · split
    · exact Or.inl rfl
    · split
      · exact Or.inl rfl
      · split
        · exact Or.inl rfl
        · next req hb =>
          split
          · exact Or.inl rfl
          · next hroom =>
            refine Or.inr
              ⟨⟨e.uuidNew 0, req.Name, req.Description, req.Unit, req.RoomID, e.now 0,
                  e.now 0⟩, rfl, ?_, rfl⟩
            cases hr : s.rooms.get? req.RoomID <;> simp [hr] at hroom ⊢

theorem ListMetrics_state (s : Server) (e : Env) (r : Request Unit) :
    (s.ListMetrics e r).2 = s := by
  unfold Server.ListMetrics
  repeat' split
  all_goals rfl

theorem GetMetric_state (s : Server) (e : Env) (r : Request Unit) :
    (s.GetMetric e r).2 = s := by
  unfold Server.GetMetric
  repeat' split
  all_goals rfl

theorem DeleteMetric_state (s : Server) (e : Env) (r : Request Unit) :
    (s.DeleteMetric e r).2 = s ∨
    ∃ id : UUID,
      (s.DeleteMetric e r).2 =
        { s with metrics := s.metrics.delete id, readings := s.readings.delete id } := by
  unfold Server.DeleteMetric
  repeat' split
  all_goals first
    | exact Or.inl rfl
    | exact Or.inr ⟨_, rfl⟩

theorem AddReading_state (s : Server) (e : Env) (r : Request AddReadingRequest) :
    (s.AddReading e r).2 = s ∨
    ∃ (id : UUID) (reading : MetricReading),
      (s.metrics.get? id).isSome = true ∧ reading.MetricID = id ∧
      (s.AddReading e r).2 =
        { s with
          readings := s.readings.set id ((s.readings.get? id).getD [] ++ [reading]) } := by
  unfold Server.AddReading
  split
  · exact Or.inl rfl
  · split
    · exact Or.inl rfl
    · split
      · exact Or.inl rfl
      · next id hp =>
        split
        · exact Or.inl rfl
        · next hm =>
          split
          · exact Or.inl rfl
          · next req hb =>
            refine Or.inr ⟨id, _, ?_, ?_, rfl⟩
            · cases hr : s.metrics.get? id <;> simp [hr] at hm ⊢
            · rfl

theorem GetReadings_state (s : Server) (e : Env) (r : Request Unit) :
    (s.GetReadings e r).2 = s := by
  unfold Server.GetReadings
  repeat' split
  all_goals rfl

/-- Every handler call changes the store in one of the ways of `Change`. -/
theorem step_change (s : Server) (op : Op) : Change s (s.step op) := by
  cases op with
  | register e r =>
    rcases Register_state s e r with h | ⟨user, _, hfree, h⟩
    · simp only [Server.step, h]; exact Change.same
    · simp only [Server.step, h]; exact Change.addUser user hfree
  | login e r => simp only [Server.step, Login_state]; exact Change.same
  | listUsers e r => simp only [Server.step, ListUsers_state]; exact Change.same
  | createRole e r =>
    rcases CreateRole_state s e r with h | ⟨role, hnew, h⟩
    · simp only [Server.step, h]; exact Change.same
    · simp only [Server.step, h]; exact Change.addRole role hnew
  | createRoom e r =>
    rcases CreateRoom_state s e r with h | ⟨room, _, h⟩
    · simp only [Server.step, h]; exact Change.same
    · simp only [Server.step, h]; exact Change.addRoom room
  | listRooms e r => simp only [Server.step, ListRooms_state]; exact Change.same
  | getRoom e r => simp only [Server.step, GetRoom_state]; exact Change.same
  | deleteRoom e r =>
    rcases DeleteRoom_state s e r with h | ⟨id, _, _, _, h⟩
    · simp only [Server.step, h]; exact Change.same
    · simp only [Server.step, h]; exact Change.dropRoom id
  | createMetric e r =>
    rcases CreateMetric_state s e r with h | ⟨metric, _, hroom, h⟩
    · simp only [Server.step, h]; exact Change.same
    · simp only [Server.step, h]; exact Change.addMetric metric hroom
  | listMetrics e r => simp only [Server.step, ListMetrics_state]; exact Change.same
  | getMetric e r => simp only [Server.step, GetMetric_state]; exact Change.same
  | deleteMetric e r =>
    rcases DeleteMetric_state s e r with h | ⟨id, h⟩
    · simp only [Server.step, h]; exact Change.same
    · simp only [Server.step, h]; exact Change.dropMetric id
  | addReading e r =>
    rcases AddReading_state s e r with h | ⟨id, reading, hm, hid, h⟩
    · simp only [Server.step, h]; exact Change.same
    · simp only [Server.step, h]; exact Change.addReading id reading hm hid
  | getReadings e r => simp only [Server.step, GetReadings_state]; exact Change.same

/-- A property that holds of every new server and survives every change holds of every
reachable store. -/
theorem run_induction (P : Server → Prop) (hstep : ∀ s t, P s → Change s t → P t)
    (ops : List Op) (s : Server) (hs : P s) : P (s.run ops) := by
  induction ops generalizing s with
  | nil => exact hs
  | cons op t ih =>
    simp only [Server.run, List.foldl_cons]
    exact ih (s.step op) (hstep s (s.step op) hs (step_change s op))

end HouseholdServer

namespace HouseholdServer

open Server

/-! ## The loop of `DeleteRoom`, key by key -/

theorem deleteRoomMetrics_foldl_miss (id : UUID) (l : List (UUID × Metric)) (st : Server)
    (k : UUID) (hmiss : ∀ v : Metric, (k, v) ∈ l → v.RoomID ≠ id) :
    (l.foldl (deleteRoomStep id) st).metrics.get? k = st.metrics.get? k ∧
    (l.foldl (deleteRoomStep id) st).readings.get? k = st.readings.get? k := by
  induction l generalizing st with
  | nil => exact ⟨rfl, rfl⟩
  | cons p t ih =>
    simp only [List.foldl_cons]
    have h := ih (deleteRoomStep id st p) (fun v hv => hmiss v (List.mem_cons_of_mem _ hv))
    rw [h.1, h.2]
    by_cases hr : p.2.RoomID = id
    · have hk : k ≠ p.1 := by
        intro hh
        apply hmiss p.2 _ hr
        rw [hh]
        exact List.mem_cons_self _ _
      simp [deleteRoomStep, hr, GoMap.get?_delete, hk]
    · simp [deleteRoomStep, hr]

/-- After the loop a metric is stored exactly when it was stored and belongs to another room. -/
theorem deleteRoomMetrics_metrics_get (s : Server) (id k : UUID) :
    (s.deleteRoomMetrics id).metrics.get? k =
      match s.metrics.get? k with
      | some m => if m.RoomID = id then none else some m
      | none => none := by
  cases hg : s.metrics.get? k with
  | none =>
    have hmiss : ∀ v : Metric, (k, v) ∈ s.metrics.entries → v.RoomID ≠ id := by
      intro v hv
      rw [s.metrics.get?_of_mem_entries k v hv] at hg
      exact Option.noConfusion hg
    have h := (deleteRoomMetrics_foldl_miss id s.metrics.entries s k hmiss).1
    unfold Server.deleteRoomMetrics
    rw [h, hg]
  | some m =>
    by_cases hr : m.RoomID = id
    · simp only [if_pos hr]
      exact (deleteRoomMetrics_hit s id k m hg hr).1
    · have hmiss : ∀ v : Metric, (k, v) ∈ s.metrics.entries → v.RoomID ≠ id := by
        intro v hv
        rw [s.metrics.get?_of_mem_entries k v hv] at hg
        injection hg with hg
        rw [hg]
        exact hr
      have h := (deleteRoomMetrics_foldl_miss id s.metrics.entries s k hmiss).1
      unfold Server.deleteRoomMetrics
      simp only [if_neg hr]
      rw [h, hg]

/-- After the loop a readings entry is gone exactly when its key was the key of a metric of
the deleted room; every other readings entry is as it was. -/
theorem deleteRoomMetrics_readings_get (s : Server) (id k : UUID) :
    (s.deleteRoomMetrics id).readings.get? k =
      match s.metrics.get? k with
      | some m => if m.RoomID = id then none else s.readings.get? k
      | none => s.readings.get? k := by
  cases hg : s.metrics.get? k with
  | none =>
    have hmiss : ∀ v : Metric, (k, v) ∈ s.metrics.entries → v.RoomID ≠ id := by
      intro v hv
      rw [s.metrics.get?_of_mem_entries k v hv] at hg
      exact Option.noConfusion hg
    exact (deleteRoomMetrics_foldl_miss id s.metrics.entries s k hmiss).2
  | some m =>
    by_cases hr : m.RoomID = id
    · simp only [if_pos hr]
      exact (deleteRoomMetrics_hit s id k m hg hr).2
    · have hmiss : ∀ v : Metric, (k, v) ∈ s.metrics.entries → v.RoomID ≠ id := by
        intro v hv
        rw [s.metrics.get?_of_mem_entries k v hv] at hg
        injection hg with hg
        rw [hg]
        exact hr
      simp only [if_neg hr]
      exact (deleteRoomMetrics_foldl_miss id s.metrics.entries s k hmiss).2

theorem deleteRoomMetrics_roles (s : Server) (id : UUID) :
    (s.deleteRoomMetrics id).roles = s.roles :=
  (deleteRoomMetrics_foldl_frame id s.metrics.entries s).2.1

theorem GoMap.get?_set {K V : Type} [DecidableEq K] (m : GoMap K V) (k x : K) (v : V) :
    (m.set k v).get? x = if x = k then some v else m.get? x := by
  by_cases h : x = k
  · subst h
    simp [GoMap.get?_set_self]
  · simp [h, GoMap.get?_set_ne _ _ _ _ h]

/-! ## Usernames stay unique -/

theorem usernamesUnique_newServer (adminID userID : UUID) :
    UsernamesUnique (NewServer adminID userID) := by
  intro k1 k2 u1 u2 h1
  simp [NewServer, GoMap.get?, GoMap.empty, getEntry] at h1

theorem usernamesUnique_change (s t : Server) (h : UsernamesUnique s) (hc : Change s t) :
    UsernamesUnique t := by
  cases hc with
  | same => exact h
  | addUser user hfree =>
    intro k1 k2 u1 u2 h1 h2 hn
    simp only [GoMap.get?_set] at h1 h2
    by_cases e1 : k1 = user.ID
    · by_cases e2 : k2 = user.ID
      · rw [e1, e2]
      · rw [if_pos e1] at h1
        rw [if_neg e2] at h2
        injection h1 with h1
        exact absurd (hn ▸ h1 ▸ rfl) (hfree u2 (s.users.mem_values_of_get? k2 u2 h2))
    · by_cases e2 : k2 = user.ID
      · rw [if_neg e1] at h1
        rw [if_pos e2] at h2
        injection h2 with h2
        exact absurd (hn.trans (h2 ▸ rfl)) (hfree u1 (s.users.mem_values_of_get? k1 u1 h1))
      · rw [if_neg e1] at h1
        rw [if_neg e2] at h2
        exact h k1 k2 u1 u2 h1 h2 hn
  | addRole role hnew => exact h
  | addRoom room => exact h
  | dropRoom id =>
    intro k1 k2 u1 u2 h1 h2 hn
    simp only [deleteRoomMetrics_users] at h1 h2
    exact h k1 k2 u1 u2 h1 h2 hn
  | addMetric metric hroom => exact h
  | dropMetric id => exact h
  | addReading id reading hm hid => exact h

/-- C11: in every store reachable from `NewServer` by handler calls run one at a time, two
users stored under different keys never have the same username. -/
theorem C11_usernames_unique (s : Server) (hreach : Reachable s) : UsernamesUnique s := by
  obtain ⟨adminID, userID, ops, rfl⟩ := hreach
  exact run_induction UsernamesUnique usernamesUnique_change ops _
    (usernamesUnique_newServer adminID userID)

end HouseholdServer

namespace HouseholdServer

open Server

/-- C11 on the demo run: after it alice and bob are stored and the usernames are unique. -/
theorem C11_usernames_unique_witness :
    ((NewServer 1 2).run demoHistory).users.values.map User.Username = ["alice", "bob"] ∧
      UsernamesUnique ((NewServer 1 2).run demoHistory) :=
  ⟨by decide, C11_usernames_unique _ ⟨1, 2, demoHistory, rfl⟩⟩

/-! ## Readings follow metrics -/

theorem readingsMatchMetrics_newServer (adminID userID : UUID) :
    ReadingsMatchMetrics (NewServer adminID userID) := by
  refine ⟨fun id => ?_, fun id m h => ?_, fun id rs h => ?_⟩
  · simp [NewServer, GoMap.get?, GoMap.empty, getEntry]
  · simp [NewServer, GoMap.get?, GoMap.empty, getEntry] at h
  · simp [NewServer, GoMap.get?, GoMap.empty, getEntry] at h

theorem readingsMatchMetrics_change (s t : Server) (h : ReadingsMatchMetrics s)
    (hc : Change s t) : ReadingsMatchMetrics t := by
  obtain ⟨h1, h2, h3⟩ := h
  cases hc with
  | same => exact ⟨h1, h2, h3⟩
  | addUser user hfree => exact ⟨h1, h2, h3⟩
  | addRole role hnew => exact ⟨h1, h2, h3⟩
  | addRoom room => exact ⟨h1, h2, h3⟩
  | dropRoom id =>
    refine ⟨fun k => ?_, fun k m hm => ?_, fun k rs hrs => ?_⟩
    · simp only [deleteRoomMetrics_metrics_get, deleteRoomMetrics_readings_get]
      cases hg : s.metrics.get? k with
      | none => simpa [hg] using h1 k
      | some m =>
        by_cases hr : m.RoomID = id
        · simp [hr]
        · simpa [hr, hg] using h1 k
    · simp only [deleteRoomMetrics_metrics_get] at hm
      cases hg : s.metrics.get? k with
      | none => simp [hg] at hm
      | some m0 =>
        by_cases hr : m0.RoomID = id
        · simp [hg, hr] at hm
        · simp only [hg, if_neg hr] at hm
          injection hm with hm
          exact hm ▸ h2 k m0 hg
    · simp only [deleteRoomMetrics_readings_get] at hrs
      cases hg : s.metrics.get? k with
      | none =>
        simp only [hg] at hrs
        exact h3 k rs hrs
      | some m0 =>
        by_cases hr : m0.RoomID = id
        · simp [hg, hr] at hrs
        · simp only [hg, if_neg hr] at hrs
          exact h3 k rs hrs
  | addMetric metric hroom =>
    refine ⟨fun k => ?_, fun k m hm => ?_, fun k rs hrs => ?_⟩
    · simp only [GoMap.get?_set]
      by_cases hk : k = metric.ID
      · simp [hk]
      · simpa [hk] using h1 k
    · simp only [GoMap.get?_set] at hm
      by_cases hk : k = metric.ID
      · simp only [if_pos hk] at hm
        injection hm with hm
        rw [← hm, hk]
      · simp only [if_neg hk] at hm
        exact h2 k m hm
    · simp only [GoMap.get?_set] at hrs
      by_cases hk : k = metric.ID
      · simp only [if_pos hk] at hrs
        injection hrs with hrs
        intro rd hrd
        rw [← hrs] at hrd
        simp at hrd
      · simp only [if_neg hk] at hrs
        exact h3 k rs hrs
  | dropMetric id =>
    refine ⟨fun k => ?_, fun k m hm => ?_, fun k rs hrs => ?_⟩
    · simp only [GoMap.get?_delete]
      by_cases hk : k = id
      · simp [hk]
      · simpa [hk] using h1 k
    · simp only [GoMap.get?_delete] at hm
      by_cases hk : k = id
      · simp [hk] at hm
      · simp only [if_neg hk] at hm
        exact h2 k m hm
    · simp only [GoMap.get?_delete] at hrs
      by_cases hk : k = id
      · simp [hk] at hrs
      · simp only [if_neg hk] at hrs
        exact h3 k rs hrs
  | addReading id reading hmetric hid =>
    refine ⟨fun k => ?_, h2, fun k rs hrs => ?_⟩
    · simp only [GoMap.get?_set]
      by_cases hk : k = id
      · simp [hk, hmetric]
      · simpa [hk] using h1 k
    · simp only [GoMap.get?_set] at hrs
      by_cases hk : k = id
      · simp only [if_pos hk] at hrs
        injection hrs with hrs
        intro rd hrd
        rw [← hrs, List.mem_append] at hrd
        rcases hrd with hrd | hrd
        · cases ho : s.readings.get? id with
          | none => simp [ho] at hrd
          | some old =>
            simp only [ho, Option.getD_some] at hrd
            rw [hk]
            exact h3 id old ho rd hrd
        · simp only [List.mem_singleton] at hrd
          rw [hrd, hid, hk]
      · simp only [if_neg hk] at hrs
        exact h3 k rs hrs

/-- C17: in every store reachable from `NewServer`, the readings map has an entry for an id
exactly when the metrics map has one, the metric stored under an id has that `ID`, and every
reading stored under an id has that `MetricID`. -/
theorem C17_readings_match_metrics (s : Server) (hreach : Reachable s) :
    ReadingsMatchMetrics s := by
  obtain ⟨adminID, userID, ops, rfl⟩ := hreach
  exact run_induction ReadingsMatchMetrics readingsMatchMetrics_change ops _
    (readingsMatchMetrics_newServer adminID userID)

/-- C17 on the demo run: metric 201 is stored with one reading and the maps agree. -/
theorem C17_readings_match_metrics_witness :
    (((NewServer 1 2).run demoHistory).readings.get? 201).map List.length = some 1 ∧
      ReadingsMatchMetrics ((NewServer 1 2).run demoHistory) :=
  ⟨by decide, C17_readings_match_metrics _ ⟨1, 2, demoHistory, rfl⟩⟩

end HouseholdServer

namespace HouseholdServer

open Server

/-! ## Metrics keep their rooms -/

theorem metricsHaveRooms_newServer (adminID userID : UUID) :
    MetricsHaveRooms (NewServer adminID userID) := by
  intro k m h
  simp [NewServer, GoMap.get?, GoMap.empty, getEntry] at h

theorem metricsHaveRooms_change (s t : Server) (h : MetricsHaveRooms s) (hc : Change s t) :
    MetricsHaveRooms t := by
  cases hc with
  | same => exact h
  | addUser user hfree => exact h
  | addRole role hnew => exact h
  | addRoom room =>
    intro k m hm
    simp only [GoMap.get?_set]
    by_cases hk : m.RoomID = room.ID
    · simp [hk]
    · simpa [hk] using h k m hm
  | dropRoom id =>
    intro k m hm
    simp only [deleteRoomMetrics_metrics_get] at hm
    simp only [deleteRoomMetrics_rooms, GoMap.get?_delete]
    cases hg : s.metrics.get? k with
    | none => simp [hg] at hm
    | some m0 =>
      by_cases hr : m0.RoomID = id
      · simp [hg, hr] at hm
      · simp only [hg, if_neg hr] at hm
        injection hm with hm
        subst hm
        simpa [hr] using h k m0 hg
  | addMetric metric hroom =>
    intro k m hm
    simp only [GoMap.get?_set] at hm
    by_cases hk : k = metric.ID
    · simp only [if_pos hk] at hm
      injection hm with hm
      subst hm
      exact hroom
    · simp only [if_neg hk] at hm
      exact h k m hm
  | dropMetric id =>
    intro k m hm
    simp only [GoMap.get?_delete] at hm
    by_cases hk : k = id
    · simp [hk] at hm
    · simp only [if_neg hk] at hm
      exact h k m hm
  | addReading id reading hmetric hid => exact h

/-- C18: in every store reachable from `NewServer`, the `RoomID` of every stored metric is the
id of a stored room. -/
theorem C18_metrics_have_rooms (s : Server) (hreach : Reachable s) : MetricsHaveRooms s := by
  obtain ⟨adminID, userID, ops, rfl⟩ := hreach
  exact run_induction MetricsHaveRooms metricsHaveRooms_change ops _
    (metricsHaveRooms_newServer adminID userID)

/-- C18 on the demo run: metric 201 belongs to room 101, which is stored. -/
theorem C18_metrics_have_rooms_witness :
    (((NewServer 1 2).run demoHistory).metrics.get? 201).map Metric.RoomID = some 101 ∧
      MetricsHaveRooms ((NewServer 1 2).run demoHistory) :=
  ⟨by decide, C18_metrics_have_rooms _ ⟨1, 2, demoHistory, rfl⟩⟩

/-! ## The role catalog -/

theorem catalogIntact_newServer (adminID userID : UUID) :
    CatalogIntact adminID userID (NewServer adminID userID) := by
  refine ⟨?_, ?_, ?_⟩
  · simp [NewServer, GoMap.get?_set, initialAdminRole, GoMap.get?, GoMap.empty, getEntry]
  · simp [NewServer, GoMap.get?_set, initialUserRole]
  · intro name role hrole
    simp only [NewServer, GoMap.get?_set] at hrole
    by_cases h1 : name = "user"
    · simp only [if_pos h1] at hrole
      injection hrole with hrole
      rw [← hrole, h1]
    · simp only [if_neg h1] at hrole
      by_cases h2 : name = "admin"
      · simp only [if_pos h2] at hrole
        injection hrole with hrole
        rw [← hrole, h2]
      · simp [h2, GoMap.get?, GoMap.empty, getEntry] at hrole

theorem catalogIntact_change (adminID userID : UUID) (s t : Server)
    (h : CatalogIntact adminID userID s) (hc : Change s t) : CatalogIntact adminID userID t := by
  cases hc with
  | same => exact h
  | addUser user hfree => exact h
  | addRole role hnew =>
    obtain ⟨h1, h2, h3⟩ := h
    have ha : "admin" ≠ role.Name := by
      intro hh
      rw [← hh, h1] at hnew
      exact Option.noConfusion hnew
    have hu : "user" ≠ role.Name := by
      intro hh
      rw [← hh, h2] at hnew
      exact Option.noConfusion hnew
    refine ⟨?_, ?_, ?_⟩
    · simp only [GoMap.get?_set, if_neg ha]
      exact h1
    · simp only [GoMap.get?_set, if_neg hu]
      exact h2
    · intro name r hr
      simp only [GoMap.get?_set] at hr
      by_cases hk : name = role.Name
      · simp only [if_pos hk] at hr
        injection hr with hr
        rw [← hr, hk]
      · simp only [if_neg hk] at hr
        exact h3 name r hr
  | addRoom room => exact h
  | dropRoom id =>
    unfold CatalogIntact
    simp only [deleteRoomMetrics_roles]
    exact h
  | addMetric metric hroom => exact h
  | dropMetric id => exact h
  | addReading id reading hmetric hid => exact h

/-- With a `"user"` role in the catalog `Register` does not panic. -/
theorem Register_no_panic (s : Server) (e : Env) (r : Request RegisterRequest) (role : Role)
    (hrole : s.roles.get? "user" = some role) : (s.Register e r).1 ≠ .panic := by
  unfold Server.Register
  split
  · simp
  · split
    · simp
    · simp only [hrole, Option.map_some']
      split
      · next hnone =>
        split at hnone <;> simp at hnone
      · split <;> simp

/-- C19: in every store reachable from `NewServer`, the catalog still holds the roles "admin"
and "user" exactly as `NewServer` created them (id, name, description, permissions), every
catalog role is stored under its own name, and `Register` never panics on its lookup of the
default role. -/
theorem C19_catalog_intact (adminID userID : UUID) (ops : List Op) :
    CatalogIntact adminID userID ((NewServer adminID userID).run ops) ∧
    (∀ (e : Env) (r : Request RegisterRequest),
      (((NewServer adminID userID).run ops).Register e r).1 ≠ .panic) := by
  have h : CatalogIntact adminID userID ((NewServer adminID userID).run ops) :=
    run_induction (CatalogIntact adminID userID) (catalogIntact_change adminID userID) ops _
      (catalogIntact_newServer adminID userID)
  exact ⟨h, fun e r => Register_no_panic _ e r _ h.2.1⟩

end HouseholdServer

namespace HouseholdServer

open Server

/-! ## Stored users are never rewritten -/

theorem Register_users_get (s : Server) (e : Env) (r : Request RegisterRequest) (k : UUID)
    (u : User) (hstored : s.users.get? k = some u)
    (hfresh : s.users.get? (e.uuidNew 0) = none) :
    (s.Register e r).2.users.get? k = some u := by
  rcases Register_state s e r with h | ⟨user, hid, _, h⟩
  · rw [h]
    exact hstored
  · rw [h]
    have hk : k ≠ user.ID := by
      intro hh
      rw [hh, hid, hfresh] at hstored
      exact Option.noConfusion hstored
    simp only [GoMap.get?_set, if_neg hk]
    exact hstored

theorem CreateRole_users (s : Server) (e : Env) (r : Request CreateRoleRequest) :
    (s.CreateRole e r).2.users = s.users := by
  rcases CreateRole_state s e r with h | ⟨role, _, h⟩ <;> rw [h]

theorem CreateRoom_users (s : Server) (e : Env) (r : Request CreateRoomRequest) :
    (s.CreateRoom e r).2.users = s.users := by
  rcases CreateRoom_state s e r with h | ⟨room, _, h⟩ <;> rw [h]

theorem DeleteRoom_users (s : Server) (e : Env) (r : Request Unit) :
    (s.DeleteRoom e r).2.users = s.users := by
  rcases DeleteRoom_state s e r with h | ⟨id, _, _, _, h⟩
  · rw [h]
  · rw [h]
    exact deleteRoomMetrics_users s id

theorem CreateMetric_users (s : Server) (e : Env) (r : Request CreateMetricRequest) :
    (s.CreateMetric e r).2.users = s.users := by
  rcases CreateMetric_state s e r with h | ⟨metric, _, _, h⟩ <;> rw [h]

theorem DeleteMetric_users (s : Server) (e : Env) (r : Request Unit) :
    (s.DeleteMetric e r).2.users = s.users := by
  rcases DeleteMetric_state s e r with h | ⟨id, h⟩ <;> rw [h]

theorem AddReading_users (s : Server) (e : Env) (r : Request AddReadingRequest) :
    (s.AddReading e r).2.users = s.users := by
  rcases AddReading_state s e r with h | ⟨id, reading, _, _, h⟩ <;> rw [h]

/-- C16: a handler call leaves every stored user record as it was, role snapshots included,
where for `Register` the id `uuid.New()` returns is not yet a key of the users map; in
particular `CreateRole` changes no stored user, so the roles a user holds stay the copies made
at registration. -/
theorem C16_stored_users_unchanged (s : Server) (op : Op) (k : UUID) (u : User)
    (hstored : s.users.get? k = some u)
    (hfresh : ∀ (e : Env) (r : Request RegisterRequest),
      op = .register e r → s.users.get? (e.uuidNew 0) = none) :
    (s.step op).users.get? k = some u ∧
    (∀ (e : Env) (r : Request CreateRoleRequest),
      (s.CreateRole e r).2.users.get? k = some u ∧
      ((s.CreateRole e r).2.users.get? k).map User.Roles = some u.Roles) := by
  refine ⟨?_, fun e r => ?_⟩
  · cases op with
    | register e r => exact Register_users_get s e r k u hstored (hfresh e r rfl)
    | login e r => simp only [Server.step, Login_state]; exact hstored
    | listUsers e r => simp only [Server.step, ListUsers_state]; exact hstored
    | createRole e r => simp only [Server.step, CreateRole_users]; exact hstored
    | createRoom e r => simp only [Server.step, CreateRoom_users]; exact hstored
    | listRooms e r => simp only [Server.step, ListRooms_state]; exact hstored
    | getRoom e r => simp only [Server.step, GetRoom_state]; exact hstored
    | deleteRoom e r => simp only [Server.step, DeleteRoom_users]; exact hstored
    | createMetric e r => simp only [Server.step, CreateMetric_users]; exact hstored
    | listMetrics e r => simp only [Server.step, ListMetrics_state]; exact hstored
    | getMetric e r => simp only [Server.step, GetMetric_state]; exact hstored
    | deleteMetric e r => simp only [Server.step, DeleteMetric_users]; exact hstored
    | addReading e r => simp only [Server.step, AddReading_users]; exact hstored
    | getReadings e r => simp only [Server.step, GetReadings_state]; exact hstored
  · rw [CreateRole_users, hstored]
    exact ⟨rfl, rfl⟩

/-- C16 at the demo store: alice, an admin, creates a new role named "admin2"; bob's record,
stored under id 12 with its two role copies, is as before.  It is also as before after carol
registers under the unused id 900. -/
theorem C16_stored_users_unchanged_witness :
    ((demoStore.step (.createRole demoEnv
        (mkReq "Bearer tokA" "/roles" (some ⟨"admin2", "", ["manage_rooms"]⟩)))).roles.get?
          "admin2").isSome = true ∧
      (demoStore.step (.createRole demoEnv
        (mkReq "Bearer tokA" "/roles" (some ⟨"admin2", "", ["manage_rooms"]⟩)))).users.get? 12
        = some demoBob ∧
      ((demoStore.step (.register demoEnv
        (mkReq "" "/register" (some ⟨"carol", "pw", "carol@example.com", []⟩)))).users.get?
          900).isSome = true ∧
      (demoStore.step (.register demoEnv
        (mkReq "" "/register" (some ⟨"carol", "pw", "carol@example.com", []⟩)))).users.get? 12
        = some demoBob :=
  ⟨by decide,
    (C16_stored_users_unchanged demoStore
      (.createRole demoEnv (mkReq "Bearer tokA" "/roles" (some ⟨"admin2", "", ["manage_rooms"]⟩)))
      12 demoBob (by decide) (fun e r h => Op.noConfusion h)).1,
    by decide,
    (C16_stored_users_unchanged demoStore
      (.register demoEnv (mkReq "" "/register" (some ⟨"carol", "pw", "carol@example.com", []⟩)))
      12 demoBob (by decide)
      (fun e r h => by
        injection h with he hr
        subst he
        decide)).1⟩

/-! ## What `DeleteRoom` leaves alone -/

theorem DeleteRoom_ok (s : Server) (e : Env) (r : Request Unit) (msg : String)
    (hok : (s.DeleteRoom e r).1 = .ok msg) :
    ∃ id : UUID, roomIDOfPath e r.path = some id ∧ (s.rooms.get? id).isSome = true ∧
      (s.DeleteRoom e r).2 =
        { s.deleteRoomMetrics id with rooms := (s.deleteRoomMetrics id).rooms.delete id } := by
  unfold Server.DeleteRoom at hok ⊢
  split
  · next h1 => simp [h1] at hok
  · next userID h1 =>
    simp only [h1] at hok
    split
    · next h2 => simp [h2] at hok
    · next user h2 =>
      simp only [h2] at hok
      split
      · next h3 => simp [h3] at hok
      · next h3 =>
        simp only [h3] at hok
        split
        · next h4 => simp [h4] at hok
        · next idStr h4 =>
          simp only [h4] at hok
          split
          · next h5 => simp [h5] at hok
          · next id h5 =>
            simp only [h5] at hok
            split
            · next h6 => simp [h6] at hok
            · next h6 =>
              refine ⟨id, ?_, ?_, rfl⟩
              · simp [roomIDOfPath, h4, h5]
              · cases hr : s.rooms.get? id <;> simp [hr] at h6 ⊢

/-- C20: a successful `DeleteRoom` of room `id` leaves the users and roles maps as they were,
every room other than `id` as it was, and every metric whose `RoomID` is not `id` stored with
the same fields and the same readings list, in the same order. -/
theorem C20_deleteRoom_frame (s : Server) (e : Env) (r : Request Unit) (msg : String)
    (hok : (s.DeleteRoom e r).1 = .ok msg) :
    ∃ id : UUID, roomIDOfPath e r.path = some id ∧
      (s.DeleteRoom e r).2.users = s.users ∧
      (s.DeleteRoom e r).2.roles = s.roles ∧
      (∀ k : UUID, k ≠ id → (s.DeleteRoom e r).2.rooms.get? k = s.rooms.get? k) ∧
      (∀ (k : UUID) (m : Metric), s.metrics.get? k = some m → m.RoomID ≠ id →
        (s.DeleteRoom e r).2.metrics.get? k = some m ∧
        (s.DeleteRoom e r).2.readings.get? k = s.readings.get? k) := by
  obtain ⟨id, hp, _, h⟩ := DeleteRoom_ok s e r msg hok
  rw [h]
  refine ⟨id, hp, deleteRoomMetrics_users s id, deleteRoomMetrics_roles s id, ?_, ?_⟩
  · intro k hk
    simp only [deleteRoomMetrics_rooms, GoMap.get?_delete, if_neg hk]
  · intro k m hm hr
    simp [deleteRoomMetrics_metrics_get, deleteRoomMetrics_readings_get, hm, hr]

end HouseholdServer

namespace HouseholdServer

open Server

/-- C20 at the demo store with two rooms: alice deletes room 101; metric 202 of room 102 and
its two readings are as before, while metric 201 of room 101 is gone. -/
theorem C20_deleteRoom_frame_witness :
    (demoStore2.DeleteRoom demoEnv (mkReq "Bearer tokA" demoRoomPath none)).2.metrics.get? 201
        = none ∧
      ∃ id : UUID, roomIDOfPath demoEnv demoRoomPath = some id ∧
        (demoStore2.DeleteRoom demoEnv (mkReq "Bearer tokA" demoRoomPath none)).2.metrics.get? 202
          = some demoMetric2 ∧
        (demoStore2.DeleteRoom demoEnv (mkReq "Bearer tokA" demoRoomPath none)).2.readings.get? 202
          = some [demoReading2, demoReading3] := by
  refine ⟨by decide, ?_⟩
  obtain ⟨id, hp, _, _, _, hm⟩ :=
    C20_deleteRoom_frame demoStore2 demoEnv (mkReq "Bearer tokA" demoRoomPath none)
      "Room deleted successfully" (by decide)
  have hid : id = 101 := by
    have h101 : roomIDOfPath demoEnv demoRoomPath = some 101 := by decide
    have h2 : some id = some 101 := hp.symm.trans h101
    injection h2
  subst hid
  have h := hm 202 demoMetric2 (by decide) (by decide)
  exact ⟨101, hp, h.1, h.2.trans (by decide)⟩

end HouseholdServer

namespace HouseholdServer

open Server

/-! ## Tokens -/

/-- C12, the code at the failing input: with a clock that passes a second boundary between the
two readings of `GenerateToken`, alice's claims bind her id text and username, but the expiry
(86404 s) is the issued-at time (5 s) plus 24 hours minus one second; with numeric dates that
keep the full instant the two are 24 hours minus 2 ns apart. -/
theorem C12_expiry_not_issued_plus_24h :
    tokenClaims tickingEnv 0 demoAlice =
      { UserID := tickingEnv.uuidString demoAlice.ID
        Username := "alice"
        ExpiresAt := some 86404000000000
        IssuedAt := some 5000000000 } ∧
    (86404000000000 : Time) = 5000000000 + 24 * Hour - 1000000000 ∧
    (86404000000000 : Time) ≠ 5000000000 + 24 * Hour ∧
    tokenClaims tickingExactEnv 0 demoAlice =
      { UserID := tickingExactEnv.uuidString demoAlice.ID
        Username := "alice"
        ExpiresAt := some (5000000001 + 24 * Hour - 2)
        IssuedAt := some 5000000001 } := by
  decide

end HouseholdServer

namespace HouseholdServer

open Server

theorem splitOnSpace_ne_nil (l : List Char) : splitOnSpace l ≠ [] := by
  cases l with
  | nil => simp [splitOnSpace]
  | cons c cs =>
    simp only [splitOnSpace]
    split
    · simp
    · split <;> simp

theorem splitOnSpace_no_space (l : List Char) (h : ' ' ∉ l) : splitOnSpace l = [l] := by
  induction l with
  | nil => rfl
  | cons c cs ih =>
    have hc : c ≠ ' ' := fun hh => h (hh ▸ List.mem_cons_self _ _)
    have hcs : ' ' ∉ cs := fun hh => h (List.mem_cons_of_mem _ hh)
    simp [splitOnSpace, hc, ih hcs]

theorem splitOnSpace_cons_of_ne (c : Char) (cs : List Char) (p : List Char)
    (ps : List (List Char)) (hc : c ≠ ' ') (h : splitOnSpace cs = p :: ps) :
    splitOnSpace (c :: cs) = (c :: p) :: ps := by
  simp [splitOnSpace, hc, h]

/-- The header `"Bearer " ++ tok` of a token without spaces splits into `"Bearer"` and `tok`. -/
theorem split_bearer (tok : String) (h : ' ' ∉ tok.data) :
    (splitOnSpace ("Bearer " ++ tok).data).map String.mk = ["Bearer", tok] := by
  have hd : ("Bearer " ++ tok).data = 'B' :: 'e' :: 'a' :: 'r' :: 'e' :: 'r' :: ' ' :: tok.data := by
    rw [String.data_append]
    rfl
  have h0 : splitOnSpace (' ' :: tok.data) = [] :: [tok.data] := by
    simp [splitOnSpace, splitOnSpace_no_space tok.data h]
  have h1 := splitOnSpace_cons_of_ne 'r' _ _ _ (by decide) h0
  have h2 := splitOnSpace_cons_of_ne 'e' _ _ _ (by decide) h1
  have h3 := splitOnSpace_cons_of_ne 'r' _ _ _ (by decide) h2
  have h4 := splitOnSpace_cons_of_ne 'a' _ _ _ (by decide) h3
  have h5 := splitOnSpace_cons_of_ne 'e' _ _ _ (by decide) h4
  have h6 := splitOnSpace_cons_of_ne 'B' _ _ _ (by decide) h5
  rw [hd, h6]
  rfl

/-- What `ValidateToken` answers for a header that splits into `"Bearer"` and `tok`. -/
theorem ValidateToken_of_bearer (e : Env) (hdr tok : String)
    (h : (splitOnSpace hdr.data).map String.mk = ["Bearer", tok]) :
    ValidateToken e hdr =
      match e.parseWithClaims tok with
      | .error err => .error err
      | .ok (valid, claims) => if !valid then .error ErrSignatureInvalid else .ok claims := by
  have hne : hdr ≠ "" := by
    intro hh
    rw [hh] at h
    simp [splitOnSpace] at h
  simp only [ValidateToken, if_neg hne, h]
  simp

/-- A header that does not split into `"Bearer"` and a token is refused, whatever the parser. -/
theorem ValidateToken_of_not_bearer (e : Env) (hdr : String)
    (h : ∀ tok : String, (splitOnSpace hdr.data).map String.mk ≠ ["Bearer", tok]) :
    ValidateToken e hdr = .error ErrSignatureInvalid := by
  unfold ValidateToken
  split
  · rfl
  · simp only []
    split
    · rfl
    · next hcond =>
      exfalso
      simp only [not_or, not_not] at hcond
      obtain ⟨hlen, hhead⟩ := hcond
      generalize hparts : (splitOnSpace hdr.data).map String.mk = parts at hlen hhead h
      rcases parts with _ | ⟨p0, _ | ⟨p1, _ | ⟨p2, rest⟩⟩⟩
      · simp at hlen
      · simp at hlen
      · simp only [List.head?_cons, Option.some.injEq] at hhead
        exact h p1 (by rw [hhead])
      · simp at hlen

/-- C14: `ValidateToken` answers `ErrSignatureInvalid`, whatever the parser is, when the header
is empty (absent) or its split on single spaces is not `"Bearer"` followed by one more part;
for a header that splits into `"Bearer"` and `tok` the answer is the parser's verdict on
exactly `tok`; and it succeeds only for such a header whose `tok` the parser accepts as valid,
returning the claims (user id and username) the parser read. -/
theorem C14_validateToken_header (e : Env) (hdr : String) :
    ((hdr = "" ∨ ∀ tok : String, (splitOnSpace hdr.data).map String.mk ≠ ["Bearer", tok]) →
      ∀ e2 : Env, ValidateToken e2 hdr = .error ErrSignatureInvalid) ∧
    (∀ tok : String, (splitOnSpace hdr.data).map String.mk = ["Bearer", tok] →
      ValidateToken e hdr =
        match e.parseWithClaims tok with
        | .error err => .error err
        | .ok (valid, claims) => if !valid then .error ErrSignatureInvalid else .ok claims) ∧
    (∀ claims : Claims, ValidateToken e hdr = .ok claims →
      ∃ tok : String, (splitOnSpace hdr.data).map String.mk = ["Bearer", tok] ∧
        e.parseWithClaims tok = .ok (true, claims) ∧
        ValidateToken e hdr = .ok claims) := by
  refine ⟨?_, fun tok h => ValidateToken_of_bearer e hdr tok h, ?_⟩
  · rintro (h | h) e2
    · simp [ValidateToken, h]
    · exact ValidateToken_of_not_bearer e2 hdr h
  · intro claims hok
    by_cases hb : ∃ tok : String, (splitOnSpace hdr.data).map String.mk = ["Bearer", tok]
    · obtain ⟨tok, htok⟩ := hb
      refine ⟨tok, htok, ?_, hok⟩
      rw [ValidateToken_of_bearer e hdr tok htok] at hok
      cases hp : e.parseWithClaims tok with
      | error err => simp [hp] at hok
      | ok res =>
        obtain ⟨valid, c⟩ := res
        cases valid with
        | false => simp [hp] at hok
        | true =>
          simp [hp] at hok
          rw [hok]
    · have hn : ∀ tok : String, (splitOnSpace hdr.data).map String.mk ≠ ["Bearer", tok] :=
        fun tok htok => hb ⟨tok, htok⟩
      rw [ValidateToken_of_not_bearer e hdr hn] at hok
      exact Except.noConfusion hok

/-- C14 in the demo environment: no header, a header with another scheme and a header with
two spaces are refused without a parser verdict; `"Bearer tokA"` gets the verdict on
`"tokA"`. -/
theorem C14_validateToken_header_witness :
    (∀ e2 : Env, ValidateToken e2 "" = .error ErrSignatureInvalid) ∧
      (∀ e2 : Env, ValidateToken e2 "Token tokA" = .error ErrSignatureInvalid) ∧
      (∀ e2 : Env, ValidateToken e2 "Bearer  tokA" = .error ErrSignatureInvalid) ∧
      ValidateToken demoEnv "Bearer tokA" = .ok ⟨"1", "alice", none, none⟩ :=
  ⟨(C14_validateToken_header demoEnv "").1 (Or.inl rfl),
    (C14_validateToken_header demoEnv "Token tokA").1
      (Or.inr (by
        intro tok h
        have h2 : (splitOnSpace "Token tokA".data).map String.mk = ["Token", "tokA"] := by
          decide
        rw [h2] at h
        simp at h)),
    (C14_validateToken_header demoEnv "Bearer  tokA").1
      (Or.inr (by
        intro tok h
        have h2 : (splitOnSpace "Bearer  tokA".data).map String.mk = ["Bearer", "", "tokA"] := by
          decide
        rw [h2] at h
        simp at h)),
    ((C14_validateToken_header demoEnv "Bearer tokA").2.1 "tokA" (by decide)).trans
      (by decide)⟩

end HouseholdServer

namespace HouseholdServer

open Server

/-- C13, with the token library modelled from the spec: the token `GenerateToken` produces at
the time `T` for a user, sent as `"Bearer " ++ tok`, is accepted by `ValidateToken` with the
issued claims at every time `t ≤ T + 24h`; at every time `t > T + 24h` `ValidateToken` fails
with the expiry error and a protected handler answers 401 Unauthorized without touching the
store. -/
theorem C13_token_validity_window (base : Env) (sign : Claims → String)
    (unsign : String → Option Claims) (user : User) (T t : Time) (tok : String)
    (htok : GenerateToken (specTokenEnv base sign unsign T) 0 user = .ok tok)
    (hround : unsign tok = some (tokenClaims (specTokenEnv base sign unsign T) 0 user))
    (hnospace : ' ' ∉ tok.data) :
    tok = sign (tokenClaims (specTokenEnv base sign unsign T) 0 user) ∧
    (tokenClaims (specTokenEnv base sign unsign T) 0 user).ExpiresAt = some (T + 24 * Hour) ∧
    (t ≤ T + 24 * Hour →
      ValidateToken (specTokenEnv base sign unsign t) ("Bearer " ++ tok) =
        .ok (tokenClaims (specTokenEnv base sign unsign T) 0 user)) ∧
    (T + 24 * Hour < t →
      ValidateToken (specTokenEnv base sign unsign t) ("Bearer " ++ tok) =
        .error "token is expired" ∧
      ∀ (s : Server) (r : Request Unit), r.authHeader = "Bearer " ++ tok →
        s.GetRoom (specTokenEnv base sign unsign t) r =
          (.error "Unauthorized" StatusUnauthorized, s)) := by
  have hsplit := split_bearer tok hnospace
  have hexp : (tokenClaims (specTokenEnv base sign unsign T) 0 user).ExpiresAt
      = some (T + 24 * Hour) := rfl
  have hparse : (specTokenEnv base sign unsign t).parseWithClaims tok =
      if T + 24 * Hour < t then .error "token is expired"
      else .ok (true, tokenClaims (specTokenEnv base sign unsign T) 0 user) := by
    show specParseWithClaims unsign t tok = _
    simp only [specParseWithClaims, hround, hexp]
  have hsign : tok = sign (tokenClaims (specTokenEnv base sign unsign T) 0 user) := by
    have h2 : (Except.ok (sign (tokenClaims (specTokenEnv base sign unsign T) 0 user)) :
        Except String String) = .ok tok := htok
    injection h2 with h2
    exact h2.symm
  refine ⟨hsign, hexp, ?_, ?_⟩
  · intro hle
    rw [ValidateToken_of_bearer _ _ tok hsplit, hparse, if_neg (not_lt.mpr hle)]
    rfl
  · intro hlt
    have hv : ValidateToken (specTokenEnv base sign unsign t) ("Bearer " ++ tok) =
        .error "token is expired" := by
      rw [ValidateToken_of_bearer _ _ tok hsplit, hparse, if_pos hlt]
    refine ⟨hv, ?_⟩
    intro s r hr
    have hg := GetUserIDFromToken_of_invalid s _ _ _ hv
    rw [← hr] at hg
    simp [Server.GetRoom, hg]

/-- C13 in the spec-modelled service: alice's token issued at the time 1000 is accepted at
exactly 1000 + 24h and refused one nanosecond later. -/
theorem C13_token_validity_window_witness :
    ValidateToken (specTokenEnv demoEnv demoSign demoUnsign (1000 + 24 * Hour)) "Bearer tokS" =
        .ok demoSpecClaims ∧
      ValidateToken (specTokenEnv demoEnv demoSign demoUnsign (1000 + 24 * Hour + 1))
          "Bearer tokS" = .error "token is expired" :=
  ⟨(C13_token_validity_window demoEnv demoSign demoUnsign demoAlice 1000 (1000 + 24 * Hour)
      "tokS" (by decide) (by decide) (by decide)).2.2.1 (by decide),
    ((C13_token_validity_window demoEnv demoSign demoUnsign demoAlice 1000
      (1000 + 24 * Hour + 1) "tokS" (by decide) (by decide) (by decide)).2.2.2 (by decide)).1⟩

/-! ## Paths without a well-formed id -/

/-- A path whose id text `uuid.Parse` refuses is answered with 400 by `GetRoom`, `GetMetric`,
`AddReading` and `GetReadings` for an authenticated caller, provided the slice expressions of
the id extraction are in range. -/
theorem invalid_id_rejected (s : Server) (e : Env) (hdr path idStr : String) (uid : UUID)
    (hauth : s.GetUserIDFromToken e hdr = .ok uid) (hbad : e.uuidParse idStr = none) :
    (sliceFrom path "/rooms/".length = some idStr →
      s.GetRoom e ⟨hdr, path, none⟩ = (.error "Invalid room ID" StatusBadRequest, s)) ∧
    (sliceFrom path "/metrics/".length = some idStr →
      s.GetMetric e ⟨hdr, path, none⟩ = (.error "Invalid metric ID" StatusBadRequest, s)) ∧
    (readingsIDStr path = some idStr →
      ∀ body, s.AddReading e ⟨hdr, path, body⟩ =
        (.error "Invalid metric ID" StatusBadRequest, s)) ∧
    (readingsIDStr path = some idStr →
      s.GetReadings e ⟨hdr, path, none⟩ = (.error "Invalid metric ID" StatusBadRequest, s)) := by
  refine ⟨fun h => ?_, fun h => ?_, fun h body => ?_, fun h => ?_⟩
  · simp [Server.GetRoom, hauth, h, hbad]
  · simp [Server.GetMetric, hauth, h, hbad]
  · simp [Server.AddReading, hauth, h, hbad]
  · simp [Server.GetReadings, hauth, h, hbad]

/-- C15, the code at the failing input: the dispatcher of `"/metrics/"` takes the path
`"/metrics/readings"` for a readings path (its last nine bytes are `"/readings"`); the id
extraction then slices the eight bytes `"readings"` down to length -1, so for the
authenticated caller alice both `AddReading` (POST) and `GetReadings` (GET) panic instead of
answering 400 Invalid metric ID, while the malformed id `"zzz"` is answered with 400. -/
theorem C15_readings_path_panics :
    sliceFrom "/metrics/readings" ("/metrics/readings".length - "/readings".length)
      = some "/readings" ∧
    sliceFrom "/metrics/readings" "/metrics/".length = some "readings" ∧
    sliceDropLast "readings" "/readings".length = none ∧
    (demoStore.metricsDispatch demoEnv "POST"
        (mkReq "Bearer tokA" "/metrics/readings" (some ⟨7, 0⟩))).1 = .panic ∧
    (demoStore.metricsDispatch demoEnv "GET"
        (mkReq "Bearer tokA" "/metrics/readings" none)).1 = .panic ∧
    (demoStore.AddReading demoEnv
        (mkReq "Bearer tokA" "/metrics/readings" (some ⟨7, 0⟩))).1 = .panic ∧
    (demoStore.GetReadings demoEnv (mkReq "Bearer tokA" "/metrics/readings" none)).1
      = .panic ∧
    (demoStore.metricsDispatch demoEnv "POST"
        (mkReq "Bearer tokA" "/metrics/zzz/readings" (some ⟨7, 0⟩))).1
      = .error "Invalid metric ID" StatusBadRequest := by
  decide

end HouseholdServer
